import Mathlib

/-!
Verification development for the snow-asset-agent repository: a shallow
embedding of its REST client (error mapping), record normalizer, global
configuration holder and reporting-tool error boundary, together with
theorems settling the frozen specification claims.

Modelling conventions, used throughout:

* Python/JSON values are the inductive `JVal`; a Python `None` and a JSON
  `null` are both `JVal.null` (a `dict.get` miss yields `None` in Python
  and `JVal.null` here).
* Python `float`s are `PyFloat`: an exact rational, or one of the three
  non-finite values.  Finite arithmetic and decimal-string conversion are
  kept exact (no IEEE-754 rounding); conversions that overflow the double
  range are mapped to the infinities at the `2^1024` bound, which is what
  decides every claim below (for example `float("1e400") == inf`).
* Python exceptions are the type `PyExc`; a function that can raise
  returns `Except PyExc _`.  `except (ValueError, TypeError)` clauses are
  modelled by `PyExc.isValueOrTypeError`.
* `requests.Response` is `HttpResponse`; `jsonBody = none` means that
  `response.json()` raises (body is not parseable JSON).
-/

/-- Kinds of the exception classes of `snow_asset_agent/exceptions.py`; all six
are direct subclasses of the base `ServiceNowError`, so `isinstance` against a
subclass is a test of the kind. -/
inductive SnowKind where
  | connection
  | auth
  | notFound
  | permission
  | rateLimit
  | generic
deriving DecidableEq, Repr

/-- A constructed `ServiceNowError` (exceptions.py lines 10-35): message plus
the optional HTTP status code, table name and record id. -/
structure SnowError where
  kind : SnowKind
  message : String
  status_code : Option Nat := none
  table_name : Option String := none
  sys_id : Option String := none
deriving DecidableEq, Repr

/-- Builtin (non-ServiceNow) Python exception classes met by the embedded
code paths. -/
inductive PyErrKind where
  | valueError
  | typeError
  | overflowError
  | attributeError
  | indexError
  | keyError
  | jsonDecode      -- requests JSONDecodeError, a ValueError subclass
  | validationError -- pydantic ValidationError
deriving DecidableEq, Repr

/-- A raised Python exception: either a typed `ServiceNowError` or a builtin
exception with its message. -/
inductive PyExc where
  | snow (e : SnowError)
  | pyErr (kind : PyErrKind) (message : String)
deriving DecidableEq, Repr

/-- Membership of an exception in the `(ValueError, TypeError)` tuple that the
normalizer parsers catch.  `JSONDecodeError` is a `ValueError` subclass and
pydantic v2's `ValidationError` is neither. -/
def PyExc.isValueOrTypeError : PyExc → Bool
  | .pyErr .valueError _ => true
  | .pyErr .typeError _ => true
  | .pyErr .jsonDecode _ => true
  | _ => false

/-- An exact rational as a numerator/denominator pair.  Every value built by
the embedding keeps a positive denominator.  Mathlib's `Rat` is not used in
computational positions because its arithmetic is irreducible to the kernel;
`Frac` arithmetic is plain integer arithmetic and evaluates under `decide`. -/
structure Frac where
  num : ℤ
  den : ℤ := 1
deriving DecidableEq, Repr

/-- The fraction n/1. -/
def Frac.ofInt (n : ℤ) : Frac := ⟨n, 1⟩

/-- Exact addition of fractions. -/
def Frac.add (a b : Frac) : Frac := ⟨a.num * b.den + b.num * a.den, a.den * b.den⟩

/-- Exact multiplication of fractions. -/
def Frac.mul (a b : Frac) : Frac := ⟨a.num * b.num, a.den * b.den⟩

/-- Negation of a fraction. -/
def Frac.neg (a : Frac) : Frac := ⟨-a.num, a.den⟩

/-- Exact division of fractions, keeping the denominator positive (division
by an exact zero is never reached by the embedded code paths: the one runtime
division is guarded by `rights > 0`). -/
def Frac.div (a b : Frac) : Frac :=
  if 0 ≤ b.num then ⟨a.num * b.den, a.den * b.num⟩
  else ⟨-(a.num * b.den), -(a.den * b.num)⟩

/-- Numeric comparison of fractions with positive denominators. -/
def Frac.leB (a b : Frac) : Bool := a.num * b.den ≤ b.num * a.den

/-- Strict numeric comparison of fractions with positive denominators. -/
def Frac.ltB (a b : Frac) : Bool := a.num * b.den < b.num * a.den

/-- Numeric equality of fractions with positive denominators. -/
def Frac.eqB (a b : Frac) : Bool := a.num * b.den = b.num * a.den

/-- Floor of a fraction with a positive denominator. -/
def Frac.floorZ (a : Frac) : ℤ := Int.fdiv a.num a.den

/-- Truncation toward zero of a fraction with a positive denominator, the
behaviour of Python `int()` on a float. -/
def Frac.truncZ (a : Frac) : ℤ := Int.tdiv a.num a.den

/-- The fraction denotes a nonnegative number. -/
def Frac.Nonneg (a : Frac) : Prop := 0 ≤ a.num ∧ 0 < a.den

/-- Overflow bound of an IEEE-754 double: conversions whose exact value
reaches `2^1024` in magnitude yield an infinity. -/
def doubleOverflowBound : Frac := ⟨((2 ^ 1024 : ℕ) : ℤ), 1⟩

/-- A Python float: exact finite rational or one of the non-finite values. -/
inductive PyFloat where
  | finite (q : Frac)
  | inf
  | neginf
  | nan
deriving DecidableEq, Repr


/-- A JSON/Python value as found in a raw API record: null, scalar, array or
object (a dict with string keys). -/
inductive JVal where
  | null
  | bool (b : Bool)
  | int (n : ℤ)
  | float (f : PyFloat)
  | str (s : String)
  | arr (xs : List JVal)
  | obj (kvs : List (String × JVal))

/-- Python truthiness of a value (`bool(v)`). -/
def pyTruthy : JVal → Bool
  | .null => false
  | .bool b => b
  | .int n => n ≠ 0
  | .float (.finite q) => q.num ≠ 0
  | .float _ => true
  | .str s => s ≠ ""
  | .arr xs => ¬ xs.isEmpty
  | .obj kvs => ¬ kvs.isEmpty

/-- Value of a digit run (most significant first). -/
def digitsToNat (l : List Char) : ℕ :=
  l.foldl (fun acc c => 10 * acc + (c.toNat - '0'.toNat)) 0

/-- Validation and removal of underscores in a Python numeric string: every
underscore must stand between two digits (CPython's rule for `float(str)`). -/
def stripNumSeps : Option Char → List Char → Option (List Char)
  | _, [] => some []
  | prev, c :: rest =>
    if c = '_' then
      match prev, rest with
      | some p, r :: _ =>
        if p.isDigit && r.isDigit then stripNumSeps (some c) rest else none
      | _, _ => none
    else (stripNumSeps (some c) rest).map (c :: ·)

/-- Mantissa of a float literal: digits with at most one dot, at least one
digit overall; returns the digit value together with the number of fraction
digits, so the denoted number is `value / 10 ^ scale`. -/
def parseFloatMantissa (l : List Char) : Option (ℕ × ℕ) :=
  let ip := l.takeWhile Char.isDigit
  let rest := l.dropWhile Char.isDigit
  match rest with
  | [] => if ip.isEmpty then none else some (digitsToNat ip, 0)
  | '.' :: fp =>
    if fp.all Char.isDigit ∧ (ip ≠ [] ∨ fp ≠ []) then
      some (digitsToNat (ip ++ fp), fp.length)
    else none
  | _ => none

/-- Exponent of a float literal: optional sign, then a nonempty digit run. -/
def parseFloatExponent (l : List Char) : Option ℤ :=
  let (sgn, digs) : ℤ × List Char :=
    match l with
    | '+' :: t => (1, t)
    | '-' :: t => (-1, t)
    | t => (1, t)
  if digs ≠ [] ∧ digs.all Char.isDigit then some (sgn * (digitsToNat digs : ℤ))
  else none

/-- Split a float literal at its first `e`/`E`, if any. -/
def splitAtExponentMark (l : List Char) : List Char × Option (List Char) :=
  let mant := l.takeWhile (fun c => c ≠ 'e' ∧ c ≠ 'E')
  match l.dropWhile (fun c => c ≠ 'e' ∧ c ≠ 'E') with
  | [] => (mant, none)
  | _ :: t => (mant, some t)

/-- Signed value of a parsed decimal literal: `(-1)^neg * m * 10 ^ k`. -/
def fracOfScaled (neg : Bool) (m : ℕ) (k : ℤ) : Frac :=
  let n : ℤ := if neg then -(m : ℤ) else (m : ℤ)
  if 0 ≤ k then ⟨n * ((10 ^ k.toNat : ℕ) : ℤ), 1⟩ else ⟨n, ((10 ^ (-k).toNat : ℕ) : ℤ)⟩

/-- Clamp an exact conversion result at the double range: magnitudes reaching
`2^1024` become the infinities, as CPython's `float` does. -/
def clampToDouble (q : Frac) : PyFloat :=
  if doubleOverflowBound.leB q then .inf
  else if q.leB doubleOverflowBound.neg then .neginf
  else .finite q

/-- CPython `float(str)`: strip whitespace, optional sign, `inf`/`infinity`/
`nan` (case-insensitive) or a decimal literal with optional fraction and
exponent, underscores allowed between digits.  `none` means `ValueError`. -/
def pyFloatOfString (s : String) : Option PyFloat :=
  let l := ((s.data.dropWhile Char.isWhitespace).reverse.dropWhile
    Char.isWhitespace).reverse
  let (neg, body) : Bool × List Char :=
    match l with
    | '+' :: t => (false, t)
    | '-' :: t => (true, t)
    | t => (false, t)
  let lower := body.map Char.toLower
  if lower = "inf".data ∨ lower = "infinity".data then
    some (if neg then .neginf else .inf)
  else if lower = "nan".data then some .nan
  else
    match stripNumSeps none body with
    | none => none
    | some digits =>
      let (mantChars, expChars) := splitAtExponentMark digits
      match parseFloatMantissa mantChars with
      | none => none
      | some (m, scale) =>
        match expChars with
        | none => some (clampToDouble (fracOfScaled neg m (-(scale : ℤ))))
        | some ec =>
          match parseFloatExponent ec with
          | none => none
          | some e =>
            some (clampToDouble (fracOfScaled neg m (e - (scale : ℤ))))

/-- CPython `float(x)` on a JSON value: parse strings, accept numbers and
bools, raise `TypeError` otherwise; an int beyond the double range raises
`OverflowError`. -/
def pyFloatOfVal : JVal → Except PyExc PyFloat
  | .str s =>
    match pyFloatOfString s with
    | some f => .ok f
    | none => .error (.pyErr .valueError ("could not convert string to float: " ++ s))
  | .int n =>
    if ((2 ^ 1024 : ℕ) : ℤ) ≤ n ∨ n ≤ -((2 ^ 1024 : ℕ) : ℤ) then
      .error (.pyErr .overflowError "int too large to convert to float")
    else .ok (.finite (Frac.ofInt n))
  | .float f => .ok f
  | .bool b => .ok (.finite (Frac.ofInt (if b then 1 else 0)))
  | .null => .error (.pyErr .typeError "float() argument must be a string or a real number, not NoneType")
  | .arr _ => .error (.pyErr .typeError "float() argument must be a string or a real number, not list")
  | .obj _ => .error (.pyErr .typeError "float() argument must be a string or a real number, not dict")

/-- CPython `int(f)` on a float: truncate a finite value toward zero; an
infinity raises `OverflowError`, `nan` raises `ValueError`. -/
def pyIntOfFloat : PyFloat → Except PyExc ℤ
  | .finite q => .ok q.truncZ
  | .inf => .error (.pyErr .overflowError "cannot convert float infinity to integer")
  | .neginf => .error (.pyErr .overflowError "cannot convert float infinity to integer")
  | .nan => .error (.pyErr .valueError "cannot convert float NaN to integer")

/-- Embedding of `models._parse_float` (models.py lines 34-42): `None`/empty
string give `None`; `float(value)` with `ValueError`/`TypeError` caught gives
`None` on failure.  Exceptions outside the caught tuple (an `OverflowError`
from a too-large int) propagate. -/
def _parse_float : JVal → Except PyExc (Option PyFloat)
  | .null => .ok none
  | .str "" => .ok none
  | v =>
    match pyFloatOfVal v with
    | .ok f => .ok (some f)
    | .error e => if e.isValueOrTypeError then .ok none else .error e

/-- Embedding of `models._parse_int` (models.py lines 44-51): `None`/empty
string give `None`; `int(float(value))` with `ValueError`/`TypeError` caught
gives `None` on failure.  An `OverflowError` (from `int(inf)`, reached for
example on the string "1e400") is outside the caught tuple and propagates. -/
def _parse_int : JVal → Except PyExc (Option ℤ)
  | .null => .ok none
  | .str "" => .ok none
  | v =>
    match (do pyIntOfFloat (← pyFloatOfVal v) : Except PyExc ℤ) with
    | .ok n => .ok (some n)
    | .error e => if e.isValueOrTypeError then .ok none else .error e

/-- Approximation of CPython's `repr` for a float.  The verified properties
never inspect this text; it only matters that the rendering of a float can
never look like a `YYYY-MM-DD` date (it contains no interior dash), which
holds for CPython's shortest-roundtrip decimal form as well. -/
def pyFloatRepr : PyFloat → String
  | .finite q => if q.den = 1 then toString q.num ++ ".0" else toString q.num ++ "/" ++ toString q.den
  | .inf => "inf"
  | .neginf => "-inf"
  | .nan => "nan"

mutual

/-- Python `repr(v)` for a JSON value (string contents are not re-escaped;
no verified property inspects a container's rendering). -/
def pyRepr : JVal → String
  | .null => "None"
  | .bool true => "True"
  | .bool false => "False"
  | .int n => toString n
  | .float f => pyFloatRepr f
  | .str s => "'" ++ s ++ "'"
  | .arr xs => "[" ++ String.intercalate ", " (pyReprList xs) ++ "]"
  | .obj kvs => "\x7b" ++ String.intercalate ", " (pyReprPairs kvs) ++ "\x7d"

/-- Renderings of the elements of a list value. -/
def pyReprList : List JVal → List String
  | [] => []
  | x :: xs => pyRepr x :: pyReprList xs

/-- Renderings of the key/value pairs of a dict value. -/
def pyReprPairs : List (String × JVal) → List String
  | [] => []
  | (k, v) :: rest => ("'" ++ k ++ "': " ++ pyRepr v) :: pyReprPairs rest

end

/-- Python `str(v)`: the string itself for a string, `repr`-style text for
everything else. -/
def pyStr : JVal → String
  | .str s => s
  | v => pyRepr v

/-- A calendar date as produced by `datetime.date`. -/
structure PyDate where
  year : ℕ
  month : ℕ
  day : ℕ
deriving DecidableEq, Repr

/-- Length of a month under the Gregorian leap rule (what `datetime` uses to
validate a day). -/
def daysInMonth (y m : ℕ) : ℕ :=
  if m = 2 then
    if y % 4 = 0 ∧ (y % 100 ≠ 0 ∨ y % 400 = 0) then 29 else 28
  else if m = 4 ∨ m = 6 ∨ m = 9 ∨ m = 11 then 30 else 31

/-- Model of `datetime.strptime(s, "%Y-%m-%d").date()`: exactly four year
digits, one or two month and day digits, the whole string consumed, and the
date valid (month 1-12, day within the month, year at least 1). -/
def parseYMD (s : String) : Option PyDate :=
  match s.splitOn "-" with
  | [ys, ms, ds] =>
    if ys.length = 4 ∧ ys.data.all Char.isDigit
        ∧ 1 ≤ ms.length ∧ ms.length ≤ 2 ∧ ms.data.all Char.isDigit
        ∧ 1 ≤ ds.length ∧ ds.length ≤ 2 ∧ ds.data.all Char.isDigit then
      let y := digitsToNat ys.data
      let m := digitsToNat ms.data
      let d := digitsToNat ds.data
      if 1 ≤ y ∧ 1 ≤ m ∧ m ≤ 12 ∧ 1 ≤ d ∧ d ≤ daysInMonth y m then
        some ⟨y, m, d⟩
      else none
    else none
  | _ => none

/-- Embedding of `models._parse_date` (models.py lines 22-31): falsy values
give `None`, otherwise the first ten characters of `str(value)` are parsed as
`YYYY-MM-DD` with any failure caught.  The `isinstance(value, date)` branch
is unreachable here: JSON-decoded raw records never hold date objects.  This
function is total: the try/except catches every parse failure. -/
def _parse_date (v : JVal) : Option PyDate :=
  if pyTruthy v then parseYMD ((pyStr v).take 10) else none

/-- Validation of a pydantic v2 `str | None` field: `None` and strings pass
unchanged, every other value raises a `ValidationError` (pydantic v2 does not
coerce numbers to strings in lax mode). -/
def validate_str_opt (v : JVal) : Except PyExc (Option String) :=
  match v with
  | .null => .ok none
  | .str s => .ok (some s)
  | _ => .error (.pyErr .validationError "Input should be a valid string")

/-- Python `record.get(k)` on a raw record: the value, or `None` on a miss. -/
def pyGet (kvs : List (String × JVal)) (k : String) : JVal :=
  (kvs.lookup k).getD .null

/-- Embedding of the reference-field expression used by every
`from_snow_record`: `record.get(key, {}).get(sub) if
isinstance(record.get(key), dict) else record.get(key)` with `sub` the
extracted member, `"display_value"` for reference fields and `"value"` for
the configuration-item link. -/
def refField (kvs : List (String × JVal)) (key sub : String) : JVal :=
  match kvs.lookup key with
  | some (.obj o) => (o.lookup sub).getD .null
  | some v => v
  | none => .null

/-- Normalized record of the `alm_asset` base model (models.py lines 59-100).
Every field is optional, defaulting to `None`, as in the pydantic model. -/
structure AssetBase where
  sys_id : Option String := none
  asset_tag : Option String := none
  display_name : Option String := none
  model : Option String := none
  model_category : Option String := none
  install_status : Option String := none
  substatus : Option String := none
  assigned_to : Option String := none
  location : Option String := none
  cost : Option PyFloat := none
  purchase_date : Option PyDate := none
  sys_created_on : Option String := none
  sys_updated_on : Option String := none
deriving DecidableEq, Repr

/-- Embedding of `AssetBase.from_snow_record` (models.py lines 76-100).  The
keyword arguments are evaluated first in source order (only `_parse_float`
can raise there; `_parse_date` is total), then pydantic validates the
string-typed fields in field order. -/
def AssetBase.from_snow_record (record : List (String × JVal)) :
    Except PyExc AssetBase := do
  let cost ← _parse_float (pyGet record "cost")
  let sys_id ← validate_str_opt (pyGet record "sys_id")
  let asset_tag ← validate_str_opt (pyGet record "asset_tag")
  let display_name ← validate_str_opt (pyGet record "display_name")
  let model ← validate_str_opt (refField record "model" "display_value")
  let model_category ← validate_str_opt (refField record "model_category" "display_value")
  let install_status ← validate_str_opt (pyGet record "install_status")
  let substatus ← validate_str_opt (pyGet record "substatus")
  let assigned_to ← validate_str_opt (refField record "assigned_to" "display_value")
  let location ← validate_str_opt (refField record "location" "display_value")
  let sys_created_on ← validate_str_opt (pyGet record "sys_created_on")
  let sys_updated_on ← validate_str_opt (pyGet record "sys_updated_on")
  .ok { sys_id := sys_id, asset_tag := asset_tag, display_name := display_name,
        model := model, model_category := model_category,
        install_status := install_status, substatus := substatus,
        assigned_to := assigned_to, location := location, cost := cost,
        purchase_date := _parse_date (pyGet record "purchase_date"),
        sys_created_on := sys_created_on, sys_updated_on := sys_updated_on }

/-- Normalized record of the `alm_hardware` table (models.py lines 108-125). -/
structure HardwareAsset where
  sys_id : Option String := none
  asset_tag : Option String := none
  display_name : Option String := none
  model : Option String := none
  model_category : Option String := none
  serial_number : Option String := none
  assigned_to : Option String := none
  location : Option String := none
  install_status : Option String := none
  substatus : Option String := none
  cost : Option PyFloat := none
  purchase_date : Option PyDate := none
  warranty_expiration : Option PyDate := none
  ci : Option String := none
  sys_updated_on : Option String := none
deriving DecidableEq, Repr

/-- Embedding of `HardwareAsset.from_snow_record` (models.py lines 127-153):
reference fields (`model`, `model_category`, `assigned_to`, `location`) take
`display_value`; the configuration-item link `ci` takes the raw `value`. -/
def HardwareAsset.from_snow_record (record : List (String × JVal)) :
    Except PyExc HardwareAsset := do
  let cost ← _parse_float (pyGet record "cost")
  let sys_id ← validate_str_opt (pyGet record "sys_id")
  let asset_tag ← validate_str_opt (pyGet record "asset_tag")
  let display_name ← validate_str_opt (pyGet record "display_name")
  let model ← validate_str_opt (refField record "model" "display_value")
  let model_category ← validate_str_opt (refField record "model_category" "display_value")
  let serial_number ← validate_str_opt (pyGet record "serial_number")
  let assigned_to ← validate_str_opt (refField record "assigned_to" "display_value")
  let location ← validate_str_opt (refField record "location" "display_value")
  let install_status ← validate_str_opt (pyGet record "install_status")
  let substatus ← validate_str_opt (pyGet record "substatus")
  let ci ← validate_str_opt (refField record "ci" "value")
  let sys_updated_on ← validate_str_opt (pyGet record "sys_updated_on")
  .ok { sys_id := sys_id, asset_tag := asset_tag, display_name := display_name,
        model := model, model_category := model_category,
        serial_number := serial_number, assigned_to := assigned_to,
        location := location, install_status := install_status,
        substatus := substatus, cost := cost,
        purchase_date := _parse_date (pyGet record "purchase_date"),
        warranty_expiration := _parse_date (pyGet record "warranty_expiration"),
        ci := ci, sys_updated_on := sys_updated_on }

/-- Normalized record of the `alm_license` table (models.py lines 161-175). -/
structure SoftwareLicense where
  sys_id : Option String := none
  asset_tag : Option String := none
  display_name : Option String := none
  product : Option String := none
  vendor : Option String := none
  license_key : Option String := none
  rights : Option ℤ := none
  allocated : Option ℤ := none
  cost : Option PyFloat := none
  start_date : Option PyDate := none
  end_date : Option PyDate := none
  sys_updated_on : Option String := none
deriving DecidableEq, Repr

/-- Embedding of `SoftwareLicense.from_snow_record` (models.py lines 177-196):
`product` comes from the `software_model` reference field, `rights` and
`allocated` go through `_parse_int`, whose `OverflowError` (for example on the
string "1e400") propagates out of the normalizer. -/
def SoftwareLicense.from_snow_record (record : List (String × JVal)) :
    Except PyExc SoftwareLicense := do
  let rights ← _parse_int (pyGet record "rights")
  let allocated ← _parse_int (pyGet record "allocated")
  let cost ← _parse_float (pyGet record "cost")
  let sys_id ← validate_str_opt (pyGet record "sys_id")
  let asset_tag ← validate_str_opt (pyGet record "asset_tag")
  let display_name ← validate_str_opt (pyGet record "display_name")
  let product ← validate_str_opt (refField record "software_model" "display_value")
  let vendor ← validate_str_opt (refField record "vendor" "display_value")
  let license_key ← validate_str_opt (pyGet record "license_key")
  let sys_updated_on ← validate_str_opt (pyGet record "sys_updated_on")
  .ok { sys_id := sys_id, asset_tag := asset_tag, display_name := display_name,
        product := product, vendor := vendor, license_key := license_key,
        rights := rights, allocated := allocated, cost := cost,
        start_date := _parse_date (pyGet record "start_date"),
        end_date := _parse_date (pyGet record "end_date"),
        sys_updated_on := sys_updated_on }

/-- Normalized record of the `ast_contract` table (models.py lines 204-216). -/
structure AssetContract where
  sys_id : Option String := none
  contract_number : Option String := none
  short_description : Option String := none
  vendor : Option String := none
  starts : Option PyDate := none
  ends : Option PyDate := none
  cost : Option PyFloat := none
  payment_amount : Option PyFloat := none
  state : Option String := none
  sys_updated_on : Option String := none
deriving DecidableEq, Repr

/-- Embedding of `AssetContract.from_snow_record` (models.py lines 218-233):
`contract_number` comes from the raw `number` field, `vendor` is a reference
field. -/
def AssetContract.from_snow_record (record : List (String × JVal)) :
    Except PyExc AssetContract := do
  let cost ← _parse_float (pyGet record "cost")
  let payment_amount ← _parse_float (pyGet record "payment_amount")
  let sys_id ← validate_str_opt (pyGet record "sys_id")
  let contract_number ← validate_str_opt (pyGet record "number")
  let short_description ← validate_str_opt (pyGet record "short_description")
  let vendor ← validate_str_opt (refField record "vendor" "display_value")
  let state ← validate_str_opt (pyGet record "state")
  let sys_updated_on ← validate_str_opt (pyGet record "sys_updated_on")
  .ok { sys_id := sys_id, contract_number := contract_number,
        short_description := short_description, vendor := vendor,
        starts := _parse_date (pyGet record "starts"),
        ends := _parse_date (pyGet record "ends"),
        cost := cost, payment_amount := payment_amount,
        state := state, sys_updated_on := sys_updated_on }

/-- Normalized lifecycle record (models.py lines 241-254). -/
structure AssetLifecycle where
  sys_id : Option String := none
  asset_tag : Option String := none
  display_name : Option String := none
  stage : Option String := none
  install_status : Option String := none
  substatus : Option String := none
  install_date : Option PyDate := none
  retired_date : Option PyDate := none
  disposal_date : Option PyDate := none
  sys_updated_on : Option String := none
  days_in_stage : Option ℤ := none
deriving DecidableEq, Repr

/-- Embedding of `AssetLifecycle.from_snow_record` (models.py lines 256-272);
`stage` and `days_in_stage` are typed keyword parameters passed through. -/
def AssetLifecycle.from_snow_record (record : List (String × JVal))
    (stage : Option String := none) (days_in_stage : Option ℤ := none) :
    Except PyExc AssetLifecycle := do
  let sys_id ← validate_str_opt (pyGet record "sys_id")
  let asset_tag ← validate_str_opt (pyGet record "asset_tag")
  let display_name ← validate_str_opt (pyGet record "display_name")
  let install_status ← validate_str_opt (pyGet record "install_status")
  let substatus ← validate_str_opt (pyGet record "substatus")
  let sys_updated_on ← validate_str_opt (pyGet record "sys_updated_on")
  .ok { sys_id := sys_id, asset_tag := asset_tag, display_name := display_name,
        stage := stage, install_status := install_status, substatus := substatus,
        install_date := _parse_date (pyGet record "install_date"),
        retired_date := _parse_date (pyGet record "retired_date"),
        disposal_date := _parse_date (pyGet record "disposal_date"),
        sys_updated_on := sys_updated_on, days_in_stage := days_in_stage }

/-- The resolved configuration of `snow_asset_agent/config.py` (class
`AssetAgentConfig`), with the source defaults for timeout, retries and log
level.  The environment loading itself is not modelled; a fully resolved
value stands for a successfully constructed instance. -/
structure AssetAgentConfig where
  servicenow_instance : String
  servicenow_username : String
  servicenow_password : String
  servicenow_timeout : ℤ := 30
  servicenow_max_retries : ℤ := 3
  log_level : String := "INFO"
deriving DecidableEq, Repr

/-- Python `s.rstrip("/")`: every trailing slash removed. -/
def pyRstripSlash (s : String) : String :=
  String.mk ((s.data.reverse.dropWhile (fun c => c = '/')).reverse)

/-- Embedding of the `base_url` property (config.py lines 63-66):
`self.servicenow_instance.rstrip("/") + "/api/now"`. -/
def AssetAgentConfig.base_url (c : AssetAgentConfig) : String :=
  pyRstripSlash c.servicenow_instance ++ "/api/now"

/-- Module-level state of config.py: the `_override_config` slot and the
single-entry `functools.lru_cache` slot of `get_config`. -/
structure ConfigModuleState where
  override_slot : Option AssetAgentConfig := none
  cache_slot : Option AssetAgentConfig := none
deriving DecidableEq, Repr

/-- The three module operations of config.py lines 78-96. -/
inductive ConfigOp where
  | set (c : AssetAgentConfig)
  | reset
  | get
deriving DecidableEq

/-- The value `get_config()` returns in a given state: the cached entry when
the `lru_cache` slot is filled, else the override, else a fresh
`AssetAgentConfig()` resolved from the environment (`env`). -/
def getConfigValue (env : AssetAgentConfig) (s : ConfigModuleState) :
    AssetAgentConfig :=
  match s.cache_slot with
  | some v => v
  | none =>
    match s.override_slot with
    | some c => c
    | none => env

/-- One step of the config module: `set_config` writes the override slot only
(it does not clear the cache), `reset_config` clears both the override and the
cache, `get_config` fills the cache with the value it returns. -/
def configStep (env : AssetAgentConfig) (s : ConfigModuleState) :
    ConfigOp → ConfigModuleState
  | .set c => { s with override_slot := some c }
  | .reset => {}
  | .get => { s with cache_slot := some (getConfigValue env s) }

/-- Run a sequence of config-module operations from the initial module state
(no override, empty cache). -/
def runConfigOps (env : AssetAgentConfig) (ops : List ConfigOp) :
    ConfigModuleState :=
  ops.foldl (configStep env) {}

/-- An HTTP response as the client sees it: status, raw text and, when the
body parses as JSON, the parsed value (`jsonBody = none` means
`response.json()` raises a `ValueError`). -/
structure HttpResponse where
  status_code : ℕ
  text : String := ""
  jsonBody : Option JVal := none

/-- The `requests.Response.ok` property: true exactly when `raise_for_status`
would not raise, that is when the status is below 400 or at least 600 (1xx,
2xx and 3xx responses all count as ok). -/
def HttpResponse.respOk (r : HttpResponse) : Bool :=
  decide (r.status_code < 400 ∨ 600 ≤ r.status_code)

/-- The detail extraction of `_raise_for_status` (client.py lines 80-84):
`body.get("error", {}).get("message", response.text[:300])` with every
failure (unparseable JSON, a non-dict body or a non-dict `error` member,
which raise inside the try) caught and replaced by the first 300 characters
of the raw text.  A non-string `error.message` is rendered by the f-string. -/
def extractDetail (r : HttpResponse) : String :=
  match r.jsonBody with
  | some (.obj body) =>
    match body.lookup "error" with
    | some (.obj eo) =>
      match eo.lookup "message" with
      | some m => pyStr m
      | none => r.text.take 300
    | some _ => r.text.take 300
    | none => r.text.take 300
  | some _ => r.text.take 300
  | none => r.text.take 300

/-- Embedding of `ServiceNowClient._raise_for_status` (client.py lines
73-114): nothing is raised when `response.ok`; otherwise 401, 403, 404 and
429 map to the four specific error kinds and every other status to the
generic API error, each carrying the status code and the table name (the
record id is never passed in). -/
def raiseForStatus (r : HttpResponse) (table : String) : Option SnowError :=
  if r.respOk then none
  else
    let detail := extractDetail r
    if r.status_code = 401 then
      some { kind := .auth,
             message := "Authentication failed for table '" ++ table ++ "': " ++ detail,
             status_code := some r.status_code, table_name := some table }
    else if r.status_code = 403 then
      some { kind := .permission,
             message := "Permission denied for table '" ++ table ++ "': " ++ detail,
             status_code := some r.status_code, table_name := some table }
    else if r.status_code = 404 then
      some { kind := .notFound,
             message := "Not found on table '" ++ table ++ "': " ++ detail,
             status_code := some r.status_code, table_name := some table }
    else if r.status_code = 429 then
      some { kind := .rateLimit,
             message := "Rate-limited on table '" ++ table ++ "': " ++ detail,
             status_code := some r.status_code, table_name := some table }
    else
      some { kind := .generic,
             message := "API error " ++ toString r.status_code ++ " on table '"
               ++ table ++ "': " ++ detail,
             status_code := some r.status_code, table_name := some table }

/-- Outcome of one `session` HTTP call: a network-level failure (mapped by
the client to a Connection error before any response exists) or a response. -/
inductive NetIn where
  | connError (detail : String)
  | timeout (detail : String)
  | resp (r : HttpResponse)

/-- Embedding of `ServiceNowClient.get_records` (client.py lines 120-163)
from the session call on: network failures become Connection errors, then
`_raise_for_status`, then `resp.json()["result"]` with `[]` as default.  A
2xx response whose body is not JSON raises the decode error (uncaught), and a
non-dict JSON body makes `data.get` raise `AttributeError`.  Query-string
construction is pass-through and not modelled. -/
def getRecords (inp : NetIn) (table : String) : Except PyExc JVal :=
  match inp with
  | .connError d =>
    .error (.snow
      { kind := .connection,
        message := "Connection error reaching '" ++ table ++ "': " ++ d,
        table_name := some table })
  | .timeout d =>
    .error (.snow
      { kind := .connection,
        message := "Timeout reaching '" ++ table ++ "': " ++ d,
        table_name := some table })
  | .resp r =>
    match raiseForStatus r table with
    | some e => .error (.snow e)
    | none =>
      match r.jsonBody with
      | none => .error (.pyErr .jsonDecode "Expecting value: line 1 column 1 (char 0)")
      | some (.obj data) => .ok ((data.lookup "result").getD (.arr []))
      | some _ => .error (.pyErr .attributeError "object has no attribute get")

/-- Embedding of `ServiceNowClient.get_record` (client.py lines 165-198):
like `getRecords` but addressed by `sys_id`, whose value reaches only the
Connection-error messages and fields — `_raise_for_status` never sees it.
The result default is the empty dict. -/
def getRecord (inp : NetIn) (table sys_id : String) : Except PyExc JVal :=
  match inp with
  | .connError d =>
    .error (.snow
      { kind := .connection,
        message := "Connection error reaching '" ++ table ++ "/" ++ sys_id ++ "': " ++ d,
        table_name := some table, sys_id := some sys_id })
  | .timeout d =>
    .error (.snow
      { kind := .connection,
        message := "Timeout reaching '" ++ table ++ "/" ++ sys_id ++ "': " ++ d,
        table_name := some table, sys_id := some sys_id })
  | .resp r =>
    match raiseForStatus r table with
    | some e => .error (.snow e)
    | none =>
      match r.jsonBody with
      | none => .error (.pyErr .jsonDecode "Expecting value: line 1 column 1 (char 0)")
      | some (.obj data) => .ok ((data.lookup "result").getD (.obj []))
      | some _ => .error (.pyErr .attributeError "object has no attribute get")

/-- Round-half-to-even of a fraction (positive denominator) to an integer,
the tie rule of Python's `round` (finite-precision representation effects of
the double argument are not modelled).  `rem2` is twice the fractional part
scaled by the denominator, so comparing it with the denominator compares the
fractional part with one half. -/
def froundHalfEven (x : Frac) : ℤ :=
  let fl := x.floorZ
  let rem2 := 2 * (x.num - fl * x.den)
  if rem2 < x.den then fl
  else if x.den < rem2 then fl + 1
  else if fl % 2 = 0 then fl else fl + 1

/-- Python `round(x, nd)` on an exact finite value. -/
def pyRoundTo (nd : ℕ) (x : Frac) : Frac :=
  ⟨froundHalfEven ⟨x.num * ((10 ^ nd : ℕ) : ℤ), x.den⟩, ((10 ^ nd : ℕ) : ℤ)⟩

/-- The dict returned by `ping` (client.py lines 284-293). -/
structure PingResult where
  status : String
  error : Option String := none
  response_time_s : Frac
deriving DecidableEq, Repr

/-- Embedding of `ServiceNowClient.ping` (client.py lines 284-293): one
`get_records("sys_properties", limit=1)` call; any `ServiceNowError` (the
base class, re-exported at client.py line 297) is converted into a
status="error" result carrying `str(exc)`, every other exception (such as
the JSON decode error of a 2xx response with an unparseable body)
propagates.  `elapsed` stands for the measured monotonic-clock difference,
nonnegative by construction. -/
def ping (inp : NetIn) (elapsed : Frac) : Except PyExc PingResult :=
  match getRecords inp "sys_properties" with
  | .ok _ => .ok { status := "ok", response_time_s := pyRoundTo 3 elapsed }
  | .error (.snow e) =>
    .ok { status := "error", error := some e.message,
          response_time_s := pyRoundTo 3 elapsed }
  | .error e => .error e

/-- PyFloat addition; finite arithmetic kept exact (CPython would round to
the nearest double and can overflow, which no verified property exercises). -/
def PyFloat.add : PyFloat → PyFloat → PyFloat
  | .nan, _ => .nan
  | _, .nan => .nan
  | .inf, .neginf => .nan
  | .neginf, .inf => .nan
  | .inf, _ => .inf
  | _, .inf => .inf
  | .neginf, _ => .neginf
  | _, .neginf => .neginf
  | .finite a, .finite b => .finite (a.add b)

/-- PyFloat multiplication; finite arithmetic kept exact. -/
def PyFloat.mul : PyFloat → PyFloat → PyFloat
  | .nan, _ => .nan
  | _, .nan => .nan
  | .inf, .inf => .inf
  | .inf, .neginf => .neginf
  | .neginf, .inf => .neginf
  | .neginf, .neginf => .inf
  | .inf, .finite b => if 0 < b.num then .inf else if b.num < 0 then .neginf else .nan
  | .finite a, .inf => if 0 < a.num then .inf else if a.num < 0 then .neginf else .nan
  | .neginf, .finite b => if 0 < b.num then .neginf else if b.num < 0 then .inf else .nan
  | .finite a, .neginf => if 0 < a.num then .neginf else if a.num < 0 then .inf else .nan
  | .finite a, .finite b => .finite (a.mul b)

/-- Python `round(f, nd)` on a float: finite values are rounded, the
non-finite values are returned unchanged. -/
def pyRoundFloat (nd : ℕ) : PyFloat → PyFloat
  | .finite q => .finite (pyRoundTo nd q)
  | f => f

/-- Result envelope of a reporting tool: the success payload, or the
`(error, error_code)` dict. -/
inductive ToolResult (α : Type) where
  | ok (payload : α)
  | err (message : String) (error_code : String)
deriving DecidableEq, Repr

/-- Python `str(exc)` for the exceptions of the embedding (a
`ServiceNowError` renders as its message). -/
def excMessage : PyExc → String
  | .snow e => e.message
  | .pyErr _ m => m

/-- The shared `except` chain of the reporting tools (utilization.py lines
81-92, costs.py lines 92-103, details.py lines 51-62 are textually
identical): `ServiceNowAuthError` first, then `ServiceNowRateLimitError`,
then the base `ServiceNowError` — whose handler reads
`getattr(exc, 'error_code', 'SN_QUERY_ERROR')`, always the default since no
exception class defines an `error_code` attribute — then any `Exception`.
`ServiceNowPermissionError` and `ServiceNowNotFoundError` are siblings, not
subclasses, of the auth error, so they fall to the base handler. -/
def toolErrorCode (e : PyExc) : String :=
  match e with
  | .snow se =>
    match se.kind with
    | .auth => "SN_AUTH_ERROR"
    | .rateLimit => "SN_RATE_LIMIT"
    | _ => "SN_QUERY_ERROR"
  | .pyErr _ _ => "SN_QUERY_ERROR"

/-- The `(error, error_code)` envelope a tool returns when its try block
raised. -/
def toolErrEnvelope (e : PyExc) : ToolResult α :=
  .err (excMessage e) (toolErrorCode e)

/-- Embedding of `utilization._safe_int` (utilization.py lines 24-30):
`int(float(val))` with `None`/empty giving 0 and `ValueError`/`TypeError`
caught to 0; an `OverflowError` propagates. -/
def _safe_int : JVal → Except PyExc ℤ
  | .null => .ok 0
  | .str "" => .ok 0
  | v =>
    match (do pyIntOfFloat (← pyFloatOfVal v) : Except PyExc ℤ) with
    | .ok n => .ok n
    | .error e => if e.isValueOrTypeError then .ok 0 else .error e

/-- Embedding of `costs._safe_float` (costs.py lines 27-34): `float(val)`
with `None`/empty giving 0.0 and `ValueError`/`TypeError` caught to 0.0; an
`OverflowError` (too-large int) propagates. -/
def _safe_float : JVal → Except PyExc PyFloat
  | .null => .ok (.finite (Frac.ofInt 0))
  | .str "" => .ok (.finite (Frac.ofInt 0))
  | v =>
    match pyFloatOfVal v with
    | .ok f => .ok f
    | .error e => if e.isValueOrTypeError then .ok (.finite (Frac.ofInt 0)) else .error e

/-- Python iteration over a JSON value (`for rec in records`): lists yield
their elements, strings their characters, dicts their keys; scalars raise
`TypeError`. -/
def pyIter : JVal → Except PyExc (List JVal)
  | .arr xs => .ok xs
  | .str s => .ok (s.data.map (fun c => .str (String.mk [c])))
  | .obj kvs => .ok (kvs.map (fun kv => .str kv.1))
  | _ => .error (.pyErr .typeError "object is not iterable")

/-- An entry of the utilization list built by `get_license_utilization`
(utilization.py lines 65-75); `sys_id` and `product` are raw pass-through
values. -/
structure UtilItem where
  sys_id : JVal
  product : JVal
  rights : ℤ
  allocated : ℤ
  utilization_pct : Frac

/-- The `product` expression of utilization.py lines 68-70:
`rec.get("software_model") if isinstance(rec.get("software_model"), str)
else (rec.get("software_model", {}) or {}).get("display_value")`; a truthy
non-dict, non-string value makes `.get` raise `AttributeError`. -/
def utilProduct (rec : List (String × JVal)) : Except PyExc JVal :=
  match rec.lookup "software_model" with
  | some (.str s) => .ok (.str s)
  | mv =>
    let base : JVal :=
      match mv with
      | some v => if pyTruthy v then v else .obj []
      | none => .obj []
    match base with
    | .obj o => .ok ((o.lookup "display_value").getD .null)
    | _ => .error (.pyErr .attributeError "object has no attribute get")

/-- One iteration of the record loop of `get_license_utilization`
(utilization.py lines 60-75). -/
def utilItemOfRec (rec : JVal) : Except PyExc UtilItem :=
  match rec with
  | .obj o => do
    let rights ← _safe_int (pyGet o "rights")
    let allocated ← _safe_int (pyGet o "allocated")
    let pct : Frac :=
      if 0 < rights then
        pyRoundTo 1 (((Frac.ofInt allocated).div (Frac.ofInt rights)).mul (Frac.ofInt 100))
      else Frac.ofInt 0
    let product ← utilProduct o
    .ok { sys_id := pyGet o "sys_id", product := product, rights := rights,
          allocated := allocated, utilization_pct := pct }
  | _ => .error (.pyErr .attributeError "object has no attribute get")

/-- Embedding of `get_license_utilization` (utilization.py lines 33-92) with
the client call abstracted by its outcome `fetch`: the `limit >= 1` guard
runs before anything touches the client; the try block fetches, builds the
per-record entries and sorts them by utilization descending (`list.sort` is
stable); the shared except chain produces the error envelope. -/
def get_license_utilization (limit : ℤ) (fetch : Except PyExc JVal) :
    ToolResult (List UtilItem × ℕ) :=
  if limit < 1 then .err "limit must be >= 1" "SN_VALIDATION_ERROR"
  else
    match (do
      let records ← fetch
      let recs ← pyIter records
      let items ← recs.mapM utilItemOfRec
      pure (items.mergeSort (fun a b => b.utilization_pct.leB a.utilization_pct))
      : Except PyExc (List UtilItem)) with
    | .ok items => .ok (items, items.length)
    | .error e => toolErrEnvelope e

/-- An entry of the per-asset breakdown of `calculate_asset_costs` (costs.py
lines 74-83). -/
structure CostItem where
  sys_id : JVal
  asset_tag : JVal
  display_name : JVal
  purchase_cost : PyFloat
  annual_maintenance : PyFloat
  tco : PyFloat

/-- The success payload of `calculate_asset_costs` (costs.py lines 85-91). -/
structure CostsPayload where
  total_purchase_cost : PyFloat
  total_annual_maintenance : PyFloat
  total_tco : PyFloat
  asset_count : ℕ
  assets : List CostItem

/-- One iteration of the asset loop of `calculate_asset_costs` (costs.py
lines 68-83), threading the two running totals. -/
def costStep (acc : PyFloat × PyFloat × List CostItem) (rec : JVal) :
    Except PyExc (PyFloat × PyFloat × List CostItem) :=
  match rec with
  | .obj o => do
    let purchase ← _safe_float (pyGet o "cost")
    let maintenance := pyRoundFloat 2 (purchase.mul (.finite ⟨15, 100⟩))
    let (tp, tm, items) := acc
    .ok (tp.add purchase, tm.add maintenance,
      items ++ [{ sys_id := pyGet o "sys_id", asset_tag := pyGet o "asset_tag",
                  display_name := pyGet o "display_name",
                  purchase_cost := purchase, annual_maintenance := maintenance,
                  tco := pyRoundFloat 2 (purchase.add maintenance) }])
  | _ => .error (.pyErr .attributeError "object has no attribute get")

/-- Embedding of `calculate_asset_costs` (costs.py lines 37-103) with the
client call abstracted by its outcome `fetch`: the `limit >= 1` guard first,
then the fetch, the accumulation loop and the rounded totals; failures go
through the shared except chain. -/
def calculate_asset_costs (limit : ℤ) (fetch : Except PyExc JVal) :
    ToolResult CostsPayload :=
  if limit < 1 then .err "limit must be >= 1" "SN_VALIDATION_ERROR"
  else
    match (do
      let records ← fetch
      let recs ← pyIter records
      recs.foldlM costStep ((.finite (Frac.ofInt 0) : PyFloat), (.finite (Frac.ofInt 0) : PyFloat), ([] : List CostItem))
      : Except PyExc (PyFloat × PyFloat × List CostItem)) with
    | .ok (tp, tm, items) =>
      .ok { total_purchase_cost := pyRoundFloat 2 tp,
            total_annual_maintenance := pyRoundFloat 2 tm,
            total_tco := pyRoundFloat 2 (tp.add tm),
            asset_count := items.length, assets := items }
    | .error e => toolErrEnvelope e

/-- Python truthiness of an optional-string argument (`if not sys_id`):
`None` and the empty string are both falsy. -/
def optStrTruthy : Option String → Bool
  | none => false
  | some s => s ≠ ""

/-- Python `records[0]` on a JSON value. -/
def pyIndexZero : JVal → Except PyExc JVal
  | .arr (x :: _) => .ok x
  | .arr [] => .error (.pyErr .indexError "list index out of range")
  | .str s =>
    match s.data with
    | c :: _ => .ok (.str (String.mk [c]))
    | [] => .error (.pyErr .indexError "string index out of range")
  | .obj _ => .error (.pyErr .keyError "0")
  | _ => .error (.pyErr .typeError "object is not subscriptable")

/-- Rendering of the `asset_tag` parameter inside the not-found f-string of
details.py line 46. -/
def optStrRepr : Option String → String
  | none => "None"
  | some s => s

/-- `AssetBase.from_snow_record` applied to an arbitrary value, as details.py
line 49 does (`record.get` on a non-dict raises `AttributeError`, caught by
the except chain). -/
def assetBaseOfJVal : JVal → Except PyExc AssetBase
  | .obj o => AssetBase.from_snow_record o
  | _ => .error (.pyErr .attributeError "object has no attribute get")

/-- Embedding of `get_asset_details` (details.py lines 25-62).  `fetchOne`
abstracts the `get_record` outcome used on the sys_id branch and `fetchList`
the `get_records` outcome of the asset-tag branch.  The validation guard
(both identifiers falsy) runs before any client call; an empty lookup on the
tag branch returns the domain-level SN_NOT_FOUND envelope; every raised
error goes through the shared except chain. -/
def get_asset_details (sys_id asset_tag : Option String)
    (fetchOne fetchList : Except PyExc JVal) : ToolResult AssetBase :=
  if ¬ optStrTruthy sys_id ∧ ¬ optStrTruthy asset_tag then
    .err "Provide either sys_id or asset_tag" "SN_VALIDATION_ERROR"
  else if optStrTruthy sys_id then
    match (do assetBaseOfJVal (← fetchOne) : Except PyExc AssetBase) with
    | .ok asset => .ok asset
    | .error e => toolErrEnvelope e
  else
    match fetchList with
    | .error e => toolErrEnvelope e
    | .ok records =>
      if ¬ pyTruthy records then
        .err ("Asset not found: asset_tag=" ++ optStrRepr asset_tag) "SN_NOT_FOUND"
      else
        match (do assetBaseOfJVal (← pyIndexZero records) : Except PyExc AssetBase) with
        | .ok asset => .ok asset
        | .error e => toolErrEnvelope e

/-- Subtraction of fractions. -/
def Frac.sub (a b : Frac) : Frac := a.add b.neg

/-- Truthiness of a Python float (`0.0` is falsy, `nan` and the infinities
are truthy). -/
def PyFloat.truthy : PyFloat → Bool
  | .finite q => q.num ≠ 0
  | _ => true

/-- Numeric equality of Python floats (`nan` is not equal to itself). -/
def PyFloat.eqvB : PyFloat → PyFloat → Bool
  | .finite a, .finite b => a.eqB b
  | .inf, .inf => true
  | .neginf, .neginf => true
  | _, _ => false

/-- Numeric strict order of Python floats (every comparison with `nan` is
false). -/
def PyFloat.ltB : PyFloat → PyFloat → Bool
  | .nan, _ => false
  | _, .nan => false
  | .finite a, .finite b => a.ltB b
  | .neginf, .neginf => false
  | .neginf, _ => true
  | _, .neginf => false
  | .inf, _ => false
  | .finite _, .inf => true

/-- Negation of a Python float. -/
def PyFloat.negF : PyFloat → PyFloat
  | .finite q => .finite q.neg
  | .inf => .neginf
  | .neginf => .inf
  | .nan => .nan

/-- Subtraction of Python floats. -/
def PyFloat.subF (a b : PyFloat) : PyFloat := a.add b.negF

/-- Division of a Python float by a nonzero exact fraction (used where the
divisor is an int the source guarantees nonzero). -/
def PyFloat.divFrac : PyFloat → Frac → PyFloat
  | .finite a, g => .finite (a.div g)
  | .nan, _ => .nan
  | .inf, g => if 0 < g.num then .inf else .neginf
  | .neginf, g => if 0 < g.num then .neginf else .inf

/-- Python `min(a, b)` on floats: `b` when `b < a`, else `a`. -/
def pyMinF (a b : PyFloat) : PyFloat := if b.ltB a then b else a

/-- Python `max(a, b)` on floats: `b` when `a < b`, else `a`. -/
def pyMaxF (a b : PyFloat) : PyFloat := if a.ltB b then b else a

/-- The float value is a number at most zero (`cost <= 0` in Python; false
for `nan` and `+inf`). -/
def PyFloat.leZeroB : PyFloat → Bool
  | .finite q => q.num ≤ 0
  | .neginf => true
  | _ => false

/-- Numeric view of a value for Python `==` (bools compare as 0/1). -/
def pyNumVal : JVal → Option PyFloat
  | .bool b => some (.finite (Frac.ofInt (if b then 1 else 0)))
  | .int n => some (.finite (Frac.ofInt n))
  | .float f => some f
  | _ => none

/-- Python `==` on the hashable scalar values that can be dict keys (the
embedded code hash-checks a value before ever comparing it, so containers —
which Python would compare recursively — are never reached here and compare
false). -/
def pyEqB (a b : JVal) : Bool :=
  match a, b with
  | .str x, .str y => x = y
  | .null, .null => true
  | a, b =>
    match pyNumVal a, pyNumVal b with
    | some x, some y => x.eqvB y
    | _, _ => false

/-- Whether a value can be a dict key or set element (lists and dicts raise
`TypeError: unhashable type`). -/
def pyHashable : JVal → Bool
  | .arr _ => false
  | .obj _ => false
  | _ => true

/-- Python `len(v)`: length of a list, string or dict; `TypeError` on
scalars. -/
def pyLen : JVal → Except PyExc ℕ
  | .arr xs => .ok xs.length
  | .str s => .ok s.length
  | .obj kvs => .ok kvs.length
  | _ => .error (.pyErr .typeError "object has no len")

/-- Python `v.get(k)` with an `AttributeError` on a non-dict receiver. -/
def jvalGetAttr (v : JVal) (k : String) : Except PyExc JVal :=
  match v with
  | .obj o => .ok (pyGet o k)
  | _ => .error (.pyErr .attributeError "object has no attribute get")

/-- Embedding of `(value or "").lower()` (health.py line 56): a falsy value
becomes the empty string, a truthy non-string raises `AttributeError`;
lower-casing is per-character (the statuses are ASCII). -/
def statusLower (v : JVal) : Except PyExc String :=
  let w := if pyTruthy v then v else .str ""
  match w with
  | .str s => .ok (String.mk (s.data.map Char.toLower))
  | _ => .error (.pyErr .attributeError "object has no attribute lower")

/-- Days in the months before month `m` of year `y`. -/
def daysBeforeMonth (y m : ℕ) : ℕ :=
  (List.range (m - 1)).foldl (fun acc i => acc + daysInMonth y (i + 1)) 0

/-- Proleptic-Gregorian ordinal of a date, as `datetime.date.toordinal`
(0001-01-01 is day 1), so that date subtraction is ordinal subtraction. -/
def toOrdinal (d : PyDate) : ℤ :=
  (365 * (d.year - 1) + (d.year - 1) / 4 - (d.year - 1) / 100 + (d.year - 1) / 400
    + daysBeforeMonth d.year d.month + d.day : ℕ)

/-- Python `(a - b).days` on dates. -/
def dateDiffDays (a b : PyDate) : ℤ := toOrdinal a - toOrdinal b

/-- `SoftwareLicense.from_snow_record` on an arbitrary value (a non-dict
makes `record.get` raise `AttributeError`). -/
def softwareLicenseOfJVal : JVal → Except PyExc SoftwareLicense
  | .obj o => SoftwareLicense.from_snow_record o
  | _ => .error (.pyErr .attributeError "object has no attribute get")

/-- `AssetContract.from_snow_record` on an arbitrary value. -/
def assetContractOfJVal : JVal → Except PyExc AssetContract
  | .obj o => AssetContract.from_snow_record o
  | _ => .error (.pyErr .attributeError "object has no attribute get")

/-- `HardwareAsset.from_snow_record` on an arbitrary value. -/
def hardwareAssetOfJVal : JVal → Except PyExc HardwareAsset
  | .obj o => HardwareAsset.from_snow_record o
  | _ => .error (.pyErr .attributeError "object has no attribute get")

/-- Embedding of `query_software_licenses` (software.py lines 41-64) with
the client call abstracted by its outcome: the `limit >= 1` guard runs
first; the try block fetches and normalizes every record; the single bare
`except Exception` handler maps every failure — typed ServiceNow errors
included — to SN_QUERY_ERROR.  Query construction (vendor/product/
expiring_soon) is pass-through and not modelled. -/
def query_software_licenses (limit : ℤ) (fetch : Except PyExc JVal) :
    ToolResult (List SoftwareLicense × ℕ) :=
  if limit < 1 then .err "limit must be >= 1" "SN_VALIDATION_ERROR"
  else
    match (do
      let records ← fetch
      let recs ← pyIter records
      recs.mapM softwareLicenseOfJVal : Except PyExc (List SoftwareLicense)) with
    | .ok licenses => .ok (licenses, licenses.length)
    | .error e => .err (excMessage e) "SN_QUERY_ERROR"

/-- Embedding of `get_asset_contracts` (contracts.py lines 37-56): like the
software tool, with the contract normalizer and the same single bare except
handler. -/
def get_asset_contracts (limit : ℤ) (fetch : Except PyExc JVal) :
    ToolResult (List AssetContract × ℕ) :=
  if limit < 1 then .err "limit must be >= 1" "SN_VALIDATION_ERROR"
  else
    match (do
      let records ← fetch
      let recs ← pyIter records
      recs.mapM assetContractOfJVal : Except PyExc (List AssetContract)) with
    | .ok contracts => .ok (contracts, contracts.length)
    | .error e => .err (excMessage e) "SN_QUERY_ERROR"

/-- An entry of the compliance report (compliance.py lines 71-80). -/
structure ComplianceItem where
  sys_id : JVal
  product : JVal
  rights : ℤ
  allocated : ℤ
  gap : ℤ
  status : String

/-- The success payload of `check_license_compliance` (compliance.py lines
82-88). -/
structure ComplianceSummary where
  compliance_results : List ComplianceItem
  count : ℕ
  compliant : ℕ
  non_compliant : ℕ
  under_utilised : ℕ

/-- One iteration of the compliance loop (compliance.py lines 52-80): the
classification order is rights-zero, over-allocated, under-utilised (the
strict `allocated < rights * 0.5` cutoff, exact here; CPython's double
multiply only differs beyond 2^54), else compliant; the under-utilised case
also counts as compliant.  The product expression is the same as the
utilization tool's. -/
def complianceStep (acc : List ComplianceItem × ℕ × ℕ × ℕ) (rec : JVal) :
    Except PyExc (List ComplianceItem × ℕ × ℕ × ℕ) :=
  match rec with
  | .obj o => do
    let rights ← _safe_int (pyGet o "rights")
    let allocated ← _safe_int (pyGet o "allocated")
    let (status, dc, dn, du) : String × ℕ × ℕ × ℕ :=
      if rights = 0 then ("unknown", 0, 0, 0)
      else if rights < allocated then ("over-allocated", 0, 1, 0)
      else if (Frac.ofInt allocated).ltB ((Frac.ofInt rights).mul ⟨1, 2⟩) then
        ("under-utilised", 1, 0, 1)
      else ("compliant", 1, 0, 0)
    let gap := allocated - rights
    let product ← utilProduct o
    let (results, c, n, u) := acc
    .ok (results ++
        [{ sys_id := pyGet o "sys_id", product := product, rights := rights,
           allocated := allocated, gap := gap, status := status }],
      c + dc, n + dn, u + du)
  | _ => .error (.pyErr .attributeError "object has no attribute get")

/-- Embedding of `check_license_compliance` (compliance.py lines 19-94):
the `limit >= 1` guard first, then the classification loop; the single bare
`except Exception` handler maps every failure to SN_QUERY_ERROR. -/
def check_license_compliance (limit : ℤ) (fetch : Except PyExc JVal) :
    ToolResult ComplianceSummary :=
  if limit < 1 then .err "limit must be >= 1" "SN_VALIDATION_ERROR"
  else
    match (do
      let records ← fetch
      let recs ← pyIter records
      recs.foldlM complianceStep (([] : List ComplianceItem), 0, 0, 0)
      : Except PyExc (List ComplianceItem × ℕ × ℕ × ℕ)) with
    | .ok (results, c, n, u) =>
      .ok { compliance_results := results, count := results.length,
            compliant := c, non_compliant := n, under_utilised := u }
    | .error e => .err (excMessage e) "SN_QUERY_ERROR"

/-- The aggregate metrics model of models.py lines 280-291. -/
structure AssetHealthMetric where
  total_assets : ℕ := 0
  active_assets : ℕ := 0
  retired_assets : ℕ := 0
  missing_assets : ℕ := 0
  in_stock_assets : ℕ := 0
  expiring_contracts_30d : ℕ := 0
  underutilized_count : ℕ := 0
  total_asset_value : Option PyFloat := none
deriving Repr

/-- One iteration of the health counting loop (health.py lines 55-66): the
lower-cased status picks at most one bucket, and the running value adds the
safe-parsed cost. -/
def healthStep (acc : ℕ × ℕ × ℕ × ℕ × PyFloat) (a : JVal) :
    Except PyExc (ℕ × ℕ × ℕ × ℕ × PyFloat) :=
  match a with
  | .obj o => do
    let status ← statusLower (pyGet o "install_status")
    let (active, retired, missing, in_stock, tv) := acc
    let (da, dr, dm, ds) : ℕ × ℕ × ℕ × ℕ :=
      if status = "in use" ∨ status = "installed" then (1, 0, 0, 0)
      else if status = "retired" then (0, 1, 0, 0)
      else if status = "missing" then (0, 0, 1, 0)
      else if status = "in stock" then (0, 0, 0, 1)
      else (0, 0, 0, 0)
    let cost ← _safe_float (pyGet o "cost")
    .ok (active + da, retired + dr, missing + dm, in_stock + ds, tv.add cost)
  | _ => .error (.pyErr .attributeError "object has no attribute get")

/-- Embedding of `get_asset_health_metrics` (health.py lines 32-89) with
the two client calls abstracted by their outcomes (the contracts call runs
only after the assets call succeeded): no validation guard; the single bare
`except Exception` handler maps every failure to SN_QUERY_ERROR.  The two
query strings (scoping and the 30-day window) are pass-through and not
modelled. -/
def get_asset_health_metrics (fetchAssets fetchContracts : Except PyExc JVal) :
    ToolResult AssetHealthMetric :=
  match (do
    let allAssets ← fetchAssets
    let total ← pyLen allAssets
    let assets ← pyIter allAssets
    let (active, retired, missing, in_stock, tv) ←
      assets.foldlM healthStep (0, 0, 0, 0, (.finite (Frac.ofInt 0) : PyFloat))
    let expiring ← fetchContracts
    let nExpiring ← pyLen expiring
    pure (total, active, retired, missing, in_stock, tv, nExpiring)
    : Except PyExc (ℕ × ℕ × ℕ × ℕ × ℕ × PyFloat × ℕ)) with
  | .ok (total, active, retired, missing, in_stock, tv, nExpiring) =>
    .ok { total_assets := total, active_assets := active,
          retired_assets := retired, missing_assets := missing,
          in_stock_assets := in_stock, expiring_contracts_30d := nExpiring,
          total_asset_value := some (pyRoundFloat 2 tv) }
  | .error e => .err (excMessage e) "SN_QUERY_ERROR"

/-- The lifecycle stage map of lifecycle.py lines 22-33. -/
def STAGE_MAP : List (String × String) :=
  [("On order", "Procurement"), ("In stock", "Received/Stocked"),
   ("In transit", "In Transit"), ("Installed", "Active/Deployed"),
   ("In use", "Active/Deployed"), ("In maintenance", "Maintenance"),
   ("Retired", "Retired"), ("Missing", "Missing"),
   ("Disposed", "Disposed"), ("Absent", "Missing")]

/-- The expression `STAGE_MAP.get(install_status, install_status or
"Unknown")` of lifecycle.py line 69: a string is looked up in the map with
itself (or "Unknown" when empty) as the default; another hashable value is
its own default (or "Unknown" when falsy); an unhashable value raises
`TypeError`. -/
def stageMapGet (v : JVal) : Except PyExc JVal :=
  match v with
  | .str s =>
    match STAGE_MAP.lookup s with
    | some m => .ok (.str m)
    | none => .ok (.str (if s = "" then "Unknown" else s))
  | .arr _ => .error (.pyErr .typeError "unhashable type")
  | .obj _ => .error (.pyErr .typeError "unhashable type")
  | v => .ok (if pyTruthy v then v else .str "Unknown")

/-- Embedding of `lifecycle._days_since` (lifecycle.py lines 36-44): falsy
gives `None`; a string has its first ten characters parsed as `YYYY-MM-DD`
and the day difference to today taken; any other value makes the slicing or
`strptime` raise inside the caught `(ValueError, TypeError)`. -/
def daysSince (today : PyDate) (v : JVal) : Option ℤ :=
  if pyTruthy v then
    match v with
    | .str s => (parseYMD (s.take 10)).map (fun d => dateDiffDays today d)
    | _ => none
  else none

/-- The body of `get_asset_lifecycle` from the fetched record on (lifecycle
lines 68-72): the stage expression, the days-in-stage computation and the
normalizer (pydantic validates a non-string stage value like any other
string field; the single `ValidationError` it raises is caught either
way). -/
def lifecycleFinish (today : PyDate) (record : JVal) :
    Except PyExc AssetLifecycle :=
  match record with
  | .obj o => do
    let install_status := (o.lookup "install_status").getD (.str "")
    let stageJ ← stageMapGet install_status
    let days := daysSince today (pyGet o "sys_updated_on")
    let stage ← validate_str_opt stageJ
    AssetLifecycle.from_snow_record o stage days
  | _ => .error (.pyErr .attributeError "object has no attribute get")

/-- Embedding of `get_asset_lifecycle` (lifecycle.py lines 47-75).  Shape
as `get_asset_details`: identifier validation first, the domain-level
SN_NOT_FOUND envelope on an empty asset_tag lookup (lifecycle.py line 65),
and otherwise a single bare `except Exception` handler mapping every
failure to SN_QUERY_ERROR. -/
def get_asset_lifecycle (sys_id asset_tag : Option String)
    (fetchOne fetchList : Except PyExc JVal) (today : PyDate) :
    ToolResult AssetLifecycle :=
  if ¬ optStrTruthy sys_id ∧ ¬ optStrTruthy asset_tag then
    .err "Provide either sys_id or asset_tag" "SN_VALIDATION_ERROR"
  else if optStrTruthy sys_id then
    match (do lifecycleFinish today (← fetchOne) : Except PyExc AssetLifecycle) with
    | .ok lc => .ok lc
    | .error e => .err (excMessage e) "SN_QUERY_ERROR"
  else
    match fetchList with
    | .error e => .err (excMessage e) "SN_QUERY_ERROR"
    | .ok records =>
      if ¬ pyTruthy records then
        .err ("Asset not found: asset_tag=" ++ optStrRepr asset_tag) "SN_NOT_FOUND"
      else
        match (do lifecycleFinish today (← pyIndexZero records)
            : Except PyExc AssetLifecycle) with
        | .ok lc => .ok lc
        | .error e => .err (excMessage e) "SN_QUERY_ERROR"

/-- Embedding of `query_hardware_assets` (hardware.py lines 51-94): guard,
fetch, normalize each record; the except chain is the shared typed one
(`toolErrEnvelope`).  The six filter parameters only shape the query string
and are not modelled. -/
def query_hardware_assets (limit : ℤ) (fetch : Except PyExc JVal) :
    ToolResult (List HardwareAsset × ℕ) :=
  if limit < 1 then .err "limit must be >= 1" "SN_VALIDATION_ERROR"
  else
    match (do
      let records ← fetch
      let recs ← pyIter records
      recs.mapM hardwareAssetOfJVal : Except PyExc (List HardwareAsset)) with
    | .ok assets => .ok (assets, assets.length)
    | .error e => toolErrEnvelope e

/-- An entry of the underutilized-asset report (underutilized.py lines
69-80). -/
structure UnderutilizedItem where
  sys_id : JVal
  asset_tag : JVal
  display_name : JVal
  install_status : JVal
  assigned_to : JVal
  sys_updated_on : JVal
  cost : PyFloat
  reason : String

/-- One iteration of the underutilized loop (underutilized.py lines 61-80):
a falsy or empty assigned_to marks the asset unassigned, otherwise
inactive; the cost accumulates into the waste total. -/
def underutilizedStep (acc : List UnderutilizedItem × PyFloat) (rec : JVal) :
    Except PyExc (List UnderutilizedItem × PyFloat) :=
  match rec with
  | .obj o => do
    let cost ← _safe_float (pyGet o "cost")
    let assigned := pyGet o "assigned_to"
    let reason : String :=
      if ¬ pyTruthy assigned ∨ pyEqB assigned (.str "") then "unassigned"
      else "inactive"
    let (items, waste) := acc
    .ok (items ++
        [{ sys_id := pyGet o "sys_id", asset_tag := pyGet o "asset_tag",
           display_name := pyGet o "display_name",
           install_status := pyGet o "install_status", assigned_to := assigned,
           sys_updated_on := pyGet o "sys_updated_on",
           cost := pyRoundFloat 2 cost, reason := reason }],
      waste.add cost)
  | _ => .error (.pyErr .attributeError "object has no attribute get")

/-- Embedding of `find_underutilized_assets` (underutilized.py lines
35-98): the `limit >= 1` guard, then the `days_threshold >= 1` guard, run
before the client call; the cutoff only shapes the query string; the except
chain is the shared typed one. -/
def find_underutilized_assets (days_threshold : ℤ) (limit : ℤ)
    (fetch : Except PyExc JVal) :
    ToolResult (List UnderutilizedItem × ℕ × PyFloat) :=
  if limit < 1 then .err "limit must be >= 1" "SN_VALIDATION_ERROR"
  else if days_threshold < 1 then
    .err "days_threshold must be >= 1" "SN_VALIDATION_ERROR"
  else
    match (do
      let records ← fetch
      let recs ← pyIter records
      recs.foldlM underutilizedStep (([] : List UnderutilizedItem),
        (.finite (Frac.ofInt 0) : PyFloat))
      : Except PyExc (List UnderutilizedItem × PyFloat)) with
    | .ok (items, waste) => .ok (items, items.length, pyRoundFloat 2 waste)
    | .error e => toolErrEnvelope e

/-- The urgency buckets of expiring.py lines 27-36. -/
def expiringUrgency (days_remaining : ℤ) : String :=
  if days_remaining < 0 then "expired"
  else if days_remaining ≤ 30 then "critical"
  else if days_remaining ≤ 60 then "warning"
  else if days_remaining ≤ 90 then "notice"
  else "info"

/-- An entry of the expiring-contracts report (expiring.py lines 80-90):
the normalized contract plus the derived fields. -/
structure ExpiringEntry where
  contract : AssetContract
  days_remaining : Option ℤ
  urgency : String

/-- One iteration of the expiring-contracts loop (expiring.py lines 80-90):
normalize (which may raise), take `(ends - today).days` when an end date
parsed, bucket the urgency, and add `contract.cost or 0.0` to the value at
risk (a falsy cost counts as zero). -/
def expiringStep (today : PyDate) (acc : List ExpiringEntry × PyFloat)
    (rec : JVal) : Except PyExc (List ExpiringEntry × PyFloat) := do
  let contract ← assetContractOfJVal rec
  let days_remaining : Option ℤ :=
    contract.ends.map (fun e => dateDiffDays e today)
  let urgency : String :=
    match days_remaining with
    | some d => expiringUrgency d
    | none => "unknown"
  let cost : PyFloat :=
    match contract.cost with
    | some c => if c.truthy then c else .finite (Frac.ofInt 0)
    | none => .finite (Frac.ofInt 0)
  let (items, total) := acc
  .ok (items ++
      [{ contract := contract, days_remaining := days_remaining,
         urgency := urgency }],
    total.add cost)

/-- Embedding of `find_expiring_contracts` (expiring.py lines 39-111): the
`limit >= 1` guard, then the `days_ahead >= 1` guard, run before the client
call; today and the window only shape the query string apart from the
per-entry day counts; entries sort ascending by days remaining with `None`
keyed as 9999; the except chain is the shared typed one. -/
def find_expiring_contracts (days_ahead : ℤ) (limit : ℤ)
    (fetch : Except PyExc JVal) (today : PyDate) :
    ToolResult (List ExpiringEntry × ℕ × PyFloat) :=
  if limit < 1 then .err "limit must be >= 1" "SN_VALIDATION_ERROR"
  else if days_ahead < 1 then
    .err "days_ahead must be >= 1" "SN_VALIDATION_ERROR"
  else
    match (do
      let records ← fetch
      let recs ← pyIter records
      let (items, total) ← recs.foldlM (expiringStep today)
        (([] : List ExpiringEntry), (.finite (Frac.ofInt 0) : PyFloat))
      pure (items.mergeSort (fun a b =>
        decide (a.days_remaining.getD 9999 ≤ b.days_remaining.getD 9999)), total)
      : Except PyExc (List ExpiringEntry × PyFloat)) with
    | .ok (items, total) => .ok (items, items.length, pyRoundFloat 2 total)
    | .error e => toolErrEnvelope e

/-- A matched asset/CI pair (reconcile.py lines 67-74). -/
structure MatchedPair where
  asset_sys_id : JVal
  asset_tag : JVal
  ci_sys_id : JVal
  ci_name : JVal

/-- An asset with no matching CI (reconcile.py lines 77-83). -/
structure UnmatchedAsset where
  sys_id : JVal
  asset_tag : JVal
  display_name : JVal

/-- A CI no asset points at (reconcile.py line 86). -/
structure UnmatchedCi where
  sys_id : JVal
  name : JVal

/-- The success payload of `reconcile_assets_to_cis` (reconcile.py lines
89-96). -/
structure ReconcilePayload where
  matched : List MatchedPair
  matched_count : ℕ
  unmatched_assets : List UnmatchedAsset
  unmatched_assets_count : ℕ
  unmatched_cis : List UnmatchedCi
  unmatched_cis_count : ℕ

/-- The CI lookup built by reconcile.py lines 47-51: every CI with a truthy
sys_id keyed by it, later entries overwriting earlier ones (an unhashable
key raises before any comparison). -/
def buildCiById (cis : List JVal) : Except PyExc (List (JVal × JVal)) :=
  cis.foldlM
    (fun m ci =>
      match ci with
      | .obj o =>
        let sid := pyGet o "sys_id"
        if pyTruthy sid then
          if pyHashable sid then
            .ok ((m.filter (fun kv => ¬ pyEqB kv.1 sid)) ++ [(sid, ci)])
          else .error (.pyErr .typeError "unhashable type")
        else .ok m
      | _ => .error (.pyErr .attributeError "object has no attribute get"))
    []

/-- One iteration of the asset loop (reconcile.py lines 58-83): the CI
reference is read as the raw value of a reference object or the plain value,
with falsy values replaced by the empty string, and matched against the CI
lookup. -/
def reconcileStep (ciById : List (JVal × JVal))
    (acc : List MatchedPair × List UnmatchedAsset × List JVal) (asset : JVal) :
    Except PyExc (List MatchedPair × List UnmatchedAsset × List JVal) :=
  match asset with
  | .obj o => do
    let ciRef := pyGet o "ci"
    let ciId : JVal :=
      match ciRef with
      | .obj co =>
        let v := (co.lookup "value").getD .null
        if pyTruthy v then v else .str ""
      | v => if pyTruthy v then v else .str ""
    let (matched, unmatched, seen) := acc
    if pyTruthy ciId then
      if pyHashable ciId then
        match ciById.find? (fun kv => pyEqB kv.1 ciId) with
        | some kv => do
          let ciName ← jvalGetAttr kv.2 "name"
          .ok (matched ++
              [{ asset_sys_id := pyGet o "sys_id",
                 asset_tag := pyGet o "asset_tag",
                 ci_sys_id := ciId, ci_name := ciName }],
            unmatched,
            if seen.any (fun s => pyEqB s ciId) then seen else seen ++ [ciId])
        | none =>
          .ok (matched,
            unmatched ++
              [{ sys_id := pyGet o "sys_id", asset_tag := pyGet o "asset_tag",
                 display_name := pyGet o "display_name" }],
            seen)
      else .error (.pyErr .typeError "unhashable type")
    else
      .ok (matched,
        unmatched ++
          [{ sys_id := pyGet o "sys_id", asset_tag := pyGet o "asset_tag",
             display_name := pyGet o "display_name" }],
        seen)
  | _ => .error (.pyErr .attributeError "object has no attribute get")

/-- The unmatched-CI comprehension of reconcile.py lines 85-87 (every CI is
a dict by the time this runs, since building the lookup already walked them
all; an unhashable sys_id raises at the set-membership test). -/
def unmatchedCisOf (cis : List JVal) (seen : List JVal) :
    Except PyExc (List UnmatchedCi) :=
  cis.foldlM
    (fun acc ci => do
      let sid ← jvalGetAttr ci "sys_id"
      if pyHashable sid then
        if seen.any (fun s => pyEqB s sid) then .ok acc
        else do
          let name ← jvalGetAttr ci "name"
          .ok (acc ++ [{ sys_id := sid, name := name }])
      else .error (.pyErr .typeError "unhashable type"))
    []

/-- Embedding of `reconcile_assets_to_cis` (reconcile.py lines 26-108) with
the two client calls abstracted by their outcomes (the CI call runs only
after the asset call succeeded): guard, CI lookup, asset loop, unmatched-CI
comprehension; the except chain is the shared typed one. -/
def reconcile_assets_to_cis (limit : ℤ)
    (fetchAssets fetchCis : Except PyExc JVal) : ToolResult ReconcilePayload :=
  if limit < 1 then .err "limit must be >= 1" "SN_VALIDATION_ERROR"
  else
    match (do
      let assetsV ← fetchAssets
      let cisV ← fetchCis
      let cis ← pyIter cisV
      let ciById ← buildCiById cis
      let assets ← pyIter assetsV
      let (matched, unmatched, seen) ← assets.foldlM (reconcileStep ciById)
        (([] : List MatchedPair), ([] : List UnmatchedAsset), ([] : List JVal))
      let unmatchedCis ← unmatchedCisOf cis seen
      pure (matched, unmatched, unmatchedCis)
      : Except PyExc (List MatchedPair × List UnmatchedAsset × List UnmatchedCi)) with
    | .ok (matched, unmatched, unmatchedCis) =>
      .ok { matched := matched, matched_count := matched.length,
            unmatched_assets := unmatched,
            unmatched_assets_count := unmatched.length,
            unmatched_cis := unmatchedCis,
            unmatched_cis_count := unmatchedCis.length }
    | .error e => toolErrEnvelope e

/-- The category-specific useful lives of depreciation.py lines 26-31. -/
def DEFAULT_USEFUL_LIFE : List (String × ℤ) :=
  [("Computer", 3), ("Server", 5), ("Network Gear", 5)]

/-- The fallback useful life of depreciation.py line 31. -/
def FALLBACK_USEFUL_LIFE : ℤ := 4

/-- Embedding of `depreciation._parse_date` (depreciation.py lines 43-49):
like the models date parser but via `date.fromisoformat` (whose additional
ISO-8601 basic formats, accepted since Python 3.11, are not modelled: the
records carry `YYYY-MM-DD` dates). -/
def depParseDate (v : JVal) : Option PyDate :=
  if pyTruthy v then parseYMD ((pyStr v).take 10) else none

/-- An entry of the depreciation schedule (depreciation.py lines 94-107);
the purchase date stands for its `isoformat` rendering. -/
structure DepreciationItem where
  sys_id : JVal
  asset_tag : JVal
  cost : PyFloat
  purchase_date : PyDate
  useful_life_years : ℤ
  years_owned : Frac
  annual_depreciation : PyFloat
  accumulated_depreciation : PyFloat
  current_value : PyFloat
  remaining_useful_life_years : PyFloat

/-- One iteration of the depreciation loop (depreciation.py lines 76-107):
records without a parsed purchase date or with a nonpositive cost are
skipped; the useful life is the parameter when truthy, else the category
default; straight-line depreciation is computed with exact arithmetic
(CPython's doubles round each step). -/
def depreciationStep (today : PyDate) (useful_life_years : Option ℤ)
    (acc : List DepreciationItem × PyFloat) (rec : JVal) :
    Except PyExc (List DepreciationItem × PyFloat) :=
  match rec with
  | .obj o => do
    let cost ← _safe_float (pyGet o "cost")
    let purchase := depParseDate (pyGet o "purchase_date")
    match purchase with
    | none => .ok acc
    | some pd =>
      if cost.leZeroB then .ok acc
      else do
        let catRaw := (o.lookup "model_category").getD (.str "")
        let cat : JVal :=
          match catRaw with
          | .obj co => (co.lookup "display_value").getD (.str "")
          | v => v
        if pyHashable cat then
          let mapLife : ℤ :=
            ((DEFAULT_USEFUL_LIFE.find? (fun kv => pyEqB (.str kv.1) cat)).map
              (·.2)).getD FALLBACK_USEFUL_LIFE
          let life : ℤ :=
            match useful_life_years with
            | some n => if n ≠ 0 then n else mapLife
            | none => mapLife
          let years_owned : Frac :=
            (Frac.ofInt (dateDiffDays today pd)).div ⟨36525, 100⟩
          let annual_dep := cost.divFrac (Frac.ofInt life)
          let accumulated := pyMinF cost (annual_dep.mul (.finite years_owned))
          let current_value :=
            pyMaxF (.finite (Frac.ofInt 0)) (cost.subF accumulated)
          let remaining_life : Frac := (Frac.ofInt life).sub years_owned
          let (items, total) := acc
          .ok (items ++
              [{ sys_id := pyGet o "sys_id", asset_tag := pyGet o "asset_tag",
                 cost := pyRoundFloat 2 cost, purchase_date := pd,
                 useful_life_years := life,
                 years_owned := pyRoundTo 2 years_owned,
                 annual_depreciation := pyRoundFloat 2 annual_dep,
                 accumulated_depreciation := pyRoundFloat 2 accumulated,
                 current_value := pyRoundFloat 2 current_value,
                 remaining_useful_life_years := pyRoundFloat 2
                   (pyMaxF (.finite (Frac.ofInt 0)) (.finite remaining_life)) }],
            total.add accumulated)
        else .error (.pyErr .typeError "unhashable type")
  | _ => .error (.pyErr .attributeError "object has no attribute get")

/-- Embedding of `track_asset_depreciation` (depreciation.py lines 52-125):
the `limit >= 1` guard before the client call, then the per-asset schedule;
the except chain is the shared typed one. -/
def track_asset_depreciation (useful_life_years : Option ℤ) (limit : ℤ)
    (fetch : Except PyExc JVal) (today : PyDate) :
    ToolResult (List DepreciationItem × ℕ × PyFloat) :=
  if limit < 1 then .err "limit must be >= 1" "SN_VALIDATION_ERROR"
  else
    match (do
      let records ← fetch
      let recs ← pyIter records
      recs.foldlM (depreciationStep today useful_life_years)
        (([] : List DepreciationItem), (.finite (Frac.ofInt 0) : PyFloat))
      : Except PyExc (List DepreciationItem × PyFloat)) with
    | .ok (items, total) => .ok (items, items.length, pyRoundFloat 2 total)
    | .error e => toolErrEnvelope e

/-- Spec-side status mapping, following the amended claim's words: 401, 403,
404 and 429 map to their kinds, every other status in the 400-599 error range
maps to the generic kind, and statuses outside that range (2xx, but also 1xx,
3xx and 600+) raise nothing. -/
def specStatusKind (status : ℕ) : Option SnowKind :=
  if status = 401 then some .auth
  else if status = 403 then some .permission
  else if status = 404 then some .notFound
  else if status = 429 then some .rateLimit
  else if 400 ≤ status ∧ status < 600 then some .generic
  else none

/-- Spec-side error-code mapping, following the amended claim's words: Auth
gives SN_AUTH_ERROR, RateLimit gives SN_RATE_LIMIT, and every other raised
error — the NotFound, Permission and Connection kinds included, as well as
any unexpected exception — gives SN_QUERY_ERROR. -/
def specErrorCode (e : PyExc) : String :=
  match e with
  | .snow se =>
    if se.kind = .auth then "SN_AUTH_ERROR"
    else if se.kind = .rateLimit then "SN_RATE_LIMIT"
    else "SN_QUERY_ERROR"
  | .pyErr _ _ => "SN_QUERY_ERROR"

/-- The five stable error codes of the reporting interface. -/
def stableErrorCodes : List String :=
  ["SN_VALIDATION_ERROR", "SN_AUTH_ERROR", "SN_RATE_LIMIT", "SN_NOT_FOUND",
   "SN_QUERY_ERROR"]

deriving instance DecidableEq for Except

set_option maxRecDepth 8000
set_option exponentiation.threshold 2000

theorem string_ne_empty_of_data (a : String) (h : a.data ≠ []) : a ≠ "" :=
  fun hc => h (congrArg String.data hc)

theorem append_data_ne_left (a b : String) (h : a.data ≠ []) :
    (a ++ b).data ≠ [] := by
  rw [String.data_append]
  simp [h]

theorem exists_prefix_iff_suffix (s t : String) :
    (∃ d : String, s = d ++ t) ↔ t.data <:+ s.data := by
  constructor
  · rintro ⟨d, rfl⟩
    exact ⟨d.data, (String.data_append d t).symm⟩
  · rintro ⟨l, hl⟩
    refine ⟨String.mk l, ?_⟩
    apply String.ext
    rw [String.data_append]
    exact hl.symm

theorem toolErrorCode_eq_specErrorCode (e : PyExc) :
    toolErrorCode e = specErrorCode e := by
  cases e with
  | pyErr k m => rfl
  | snow se => cases se with
    | mk k m sc tn si => cases k <;> rfl

theorem froundHalfEven_nonneg (x : Frac) (hn : 0 ≤ x.num) (hd : 0 < x.den) :
    0 ≤ froundHalfEven x := by
  have h0 : 0 ≤ Int.fdiv x.num x.den := Int.fdiv_nonneg hn hd.le
  unfold froundHalfEven Frac.floorZ
  dsimp only
  split_ifs <;> omega

theorem pyRoundTo_nonneg (nd : ℕ) (x : Frac) (h : x.Nonneg) :
    (pyRoundTo nd x).Nonneg := by
  obtain ⟨hn, hd⟩ := h
  constructor
  · exact froundHalfEven_nonneg _ (mul_nonneg hn (Int.natCast_nonneg _)) hd
  · show (0 : ℤ) < ((10 ^ nd : ℕ) : ℤ)
    exact_mod_cast pow_pos (by norm_num : (0 : ℕ) < 10) nd

theorem raiseForStatus_message_ne_empty (r : HttpResponse) (t : String)
    (e : SnowError) (h : raiseForStatus r t = some e) : e.message ≠ "" := by
  unfold raiseForStatus at h
  split_ifs at h <;> simp only [Option.some.injEq] at h <;> subst h <;>
    (apply string_ne_empty_of_data
     repeat
       first
       | apply append_data_ne_left
       | decide)

theorem getRecords_snow_message_ne_empty (inp : NetIn) (t : String)
    (e : SnowError) (h : getRecords inp t = .error (.snow e)) :
    e.message ≠ "" := by
  cases inp with
  | connError d =>
    simp only [getRecords, Except.error.injEq, PyExc.snow.injEq] at h
    subst h
    apply string_ne_empty_of_data
    repeat
      first
      | apply append_data_ne_left
      | decide
  | timeout d =>
    simp only [getRecords, Except.error.injEq, PyExc.snow.injEq] at h
    subst h
    apply string_ne_empty_of_data
    repeat
      first
      | apply append_data_ne_left
      | decide
  | resp r =>
    simp only [getRecords] at h
    cases hrs : raiseForStatus r t with
    | some e0 =>
      rw [hrs] at h
      simp only [Except.error.injEq, PyExc.snow.injEq] at h
      subst h
      exact raiseForStatus_message_ne_empty r t e0 hrs
    | none =>
      rw [hrs] at h
      cases hb : r.jsonBody with
      | none => rw [hb] at h; simp at h
      | some v =>
        rw [hb] at h
        cases v <;> simp at h

theorem ping_snow_branch (inp : NetIn) (q : Frac) (e : SnowError)
    (h : getRecords inp "sys_properties" = .error (.snow e)) :
    ping inp q = .ok
      { status := "error", error := some e.message,
        response_time_s := pyRoundTo 3 q } := by
  unfold ping
  rw [h]

theorem ping_ok_branch (inp : NetIn) (q : Frac) (v : JVal)
    (h : getRecords inp "sys_properties" = .ok v) :
    ping inp q = .ok { status := "ok", response_time_s := pyRoundTo 3 q } := by
  unfold ping
  rw [h]

theorem runConfigOps_append_one (env : AssetAgentConfig) (l : List ConfigOp)
    (op : ConfigOp) :
    runConfigOps env (l ++ [op]) = configStep env (runConfigOps env l) op := by
  unfold runConfigOps
  rw [List.foldl_append]
  rfl

theorem configStep_cache_isSome (env : AssetAgentConfig) (s : ConfigModuleState)
    (op : ConfigOp) (hop : op ≠ ConfigOp.reset) (hs : s.cache_slot.isSome) :
    (configStep env s op).cache_slot.isSome := by
  cases op with
  | set c => exact hs
  | reset => exact absurd rfl hop
  | get => rfl

theorem foldl_configStep_cache_isSome (env : AssetAgentConfig)
    (t : List ConfigOp) (hres : ConfigOp.reset ∉ t) :
    ∀ s : ConfigModuleState, s.cache_slot.isSome →
      (t.foldl (configStep env) s).cache_slot.isSome := by
  induction t with
  | nil => intro s hs; exact hs
  | cons op rest ih =>
    intro s hs
    have hop : op ≠ ConfigOp.reset := fun hc => hres (by rw [hc]; exact List.mem_cons_self _ _)
    have hrest : ConfigOp.reset ∉ rest := fun hc => hres (List.mem_cons_of_mem _ hc)
    exact ih hrest _ (configStep_cache_isSome env s op hop hs)

theorem getConfigValue_of_cache (env : AssetAgentConfig) (s : ConfigModuleState)
    (v : AssetAgentConfig) (h : s.cache_slot = some v) :
    getConfigValue env s = v := by
  unfold getConfigValue
  rw [h]

/-- C1: status-to-error mapping of the client, amended.  The four listed
statuses map to their kinds and carry the status code; every other status in
the 400-599 range maps to the generic kind; statuses outside that range —
the 2xx successes, but also the non-2xx 1xx/3xx/600+ responses, for which
`requests.Response.ok` is true — raise nothing.  (The original claim said
every non-2xx status raises; 3xx responses refute it, see the
counterexample.) -/
theorem client_status_mapping_amended (r : HttpResponse) (t : String) :
    (raiseForStatus r t).map (fun e => (e.kind, e.status_code))
      = (specStatusKind r.status_code).map (fun k => (k, some r.status_code)) := by
  unfold raiseForStatus specStatusKind
  by_cases hok : r.respOk = true
  · rw [if_pos hok]
    have h : r.status_code < 400 ∨ 600 ≤ r.status_code := by
      simpa [HttpResponse.respOk] using hok
    rw [if_neg (by omega), if_neg (by omega), if_neg (by omega), if_neg (by omega),
      if_neg (by omega)]
    rfl
  · rw [if_neg hok]
    have h : ¬ (r.status_code < 400 ∨ 600 ≤ r.status_code) := by
      simpa [HttpResponse.respOk] using hok
    dsimp only
    by_cases h1 : r.status_code = 401
    · rw [if_pos h1, if_pos h1]; rfl
    · rw [if_neg h1, if_neg h1]
      by_cases h2 : r.status_code = 403
      · rw [if_pos h2, if_pos h2]; rfl
      · rw [if_neg h2, if_neg h2]
        by_cases h3 : r.status_code = 404
        · rw [if_pos h3, if_pos h3]; rfl
        · rw [if_neg h3, if_neg h3]
          by_cases h4 : r.status_code = 429
          · rw [if_pos h4, if_pos h4]; rfl
          · rw [if_neg h4, if_neg h4,
              if_pos (by omega : 400 ≤ r.status_code ∧ r.status_code < 600)]
            rfl

/-- C1 counterexample: a 301 response is not a 2xx status, yet
`_raise_for_status` raises nothing for it (`response.ok` is true for every
status below 400), where the claim demands a GenericAPI error. -/
theorem client_status_mapping_3xx_counterexample :
    raiseForStatus { status_code := 301, text := "moved" } "cmdb_ci" = none
      ∧ ¬ (200 ≤ 301 ∧ 301 ≤ 299) := by
  constructor
  · rfl
  · decide

/-- C2: the claim says normalization never raises, but the normalizers can
raise.  On the record mapping `rights` to the string "1e400",
`SoftwareLicense.from_snow_record` evaluates `int(float("1e400"))`:
`float` overflows to infinity and `int(inf)` raises `OverflowError`, which
the `except (ValueError, TypeError)` of `_parse_int` does not catch, so the
whole record fails instead of degrading the field to null. -/
theorem normalizer_overflow_code_bug :
    SoftwareLicense.from_snow_record [("rights", .str "1e400")]
      = .error (.pyErr .overflowError "cannot convert float infinity to integer") := by
  decide

/-- C5: reference-field extraction.  For every record in which one of the
relational fields (model, model category, assigned-to, location, vendor,
software model) is a reference object, normalization takes its
`display_value`; the configuration-item link `ci` — and only it — takes the
raw `value`.  The two concrete spec examples are included. -/
theorem reference_field_extraction :
    (∀ s v : String, HardwareAsset.from_snow_record
        [("model", .obj [("display_value", .str s), ("value", .str v)])]
        = .ok { model := some s })
    ∧ (∀ s v : String, HardwareAsset.from_snow_record
        [("model_category", .obj [("display_value", .str s), ("value", .str v)])]
        = .ok { model_category := some s })
    ∧ (∀ s v : String, HardwareAsset.from_snow_record
        [("assigned_to", .obj [("display_value", .str s), ("value", .str v)])]
        = .ok { assigned_to := some s })
    ∧ (∀ s v : String, HardwareAsset.from_snow_record
        [("location", .obj [("display_value", .str s), ("value", .str v)])]
        = .ok { location := some s })
    ∧ (∀ s v : String, SoftwareLicense.from_snow_record
        [("vendor", .obj [("display_value", .str s), ("value", .str v)])]
        = .ok { vendor := some s })
    ∧ (∀ s v : String, SoftwareLicense.from_snow_record
        [("software_model", .obj [("display_value", .str s), ("value", .str v)])]
        = .ok { product := some s })
    ∧ (∀ s v : String, AssetContract.from_snow_record
        [("vendor", .obj [("display_value", .str s), ("value", .str v)])]
        = .ok { vendor := some s })
    ∧ (∀ s v : String, HardwareAsset.from_snow_record
        [("ci", .obj [("value", .str v), ("display_value", .str s)])]
        = .ok { ci := some v })
    ∧ HardwareAsset.from_snow_record
        [("model", .obj [("display_value", .str "Model Y"), ("value", .str "m1")])]
        = .ok { model := some "Model Y" }
    ∧ HardwareAsset.from_snow_record
        [("ci", .obj [("value", .str "ci002"), ("display_value", .str "Server A")])]
        = .ok { ci := some "ci002" } :=
  ⟨fun _ _ => rfl, fun _ _ => rfl, fun _ _ => rfl, fun _ _ => rfl, fun _ _ => rfl,
   fun _ _ => rfl, fun _ _ => rfl, fun _ _ => rfl, rfl, rfl⟩

/-- C7: the base-URL derivation strips a trailing slash and appends the fixed
API path: on the spec's two instance URLs it yields the same
"https://x.example.com/api/now", and appending a slash to any instance URL
never changes the result. -/
theorem base_url_trailing_slash :
    AssetAgentConfig.base_url
        { servicenow_instance := "https://x.example.com/",
          servicenow_username := "u", servicenow_password := "p" }
      = "https://x.example.com/api/now"
    ∧ AssetAgentConfig.base_url
        { servicenow_instance := "https://x.example.com",
          servicenow_username := "u", servicenow_password := "p" }
      = "https://x.example.com/api/now"
    ∧ ∀ c : AssetAgentConfig,
        AssetAgentConfig.base_url
          { c with servicenow_instance := c.servicenow_instance ++ "/" }
          = c.base_url := by
  refine ⟨by decide, by decide, fun c => ?_⟩
  have h : pyRstripSlash (c.servicenow_instance ++ "/")
      = pyRstripSlash c.servicenow_instance := by
    unfold pyRstripSlash
    rw [String.data_append]
    simp
  unfold AssetAgentConfig.base_url
  rw [h]

/-- C8: the scalar parsers behave as specified on the spec's examples —
`_parse_float("1200.50")` is 1200.5 (the fraction 120050/100), `_parse_int`
parses through float so "42.7" truncates to 42, and null, empty and
unparseable inputs give null — but the parsers are not total: on "1e400" the
float parse overflows to infinity and `int(inf)` raises an `OverflowError`
that the `except (ValueError, TypeError)` clause does not catch. -/
theorem parsers_overflow_code_bug :
    _parse_float (.str "1200.50") = .ok (some (.finite ⟨120050, 100⟩))
    ∧ Frac.eqB ⟨120050, 100⟩ ⟨12005, 10⟩ = true
    ∧ _parse_int (.str "42.7") = .ok (some 42)
    ∧ _parse_float .null = .ok none
    ∧ _parse_float (.str "") = .ok none
    ∧ _parse_float (.str "abc") = .ok none
    ∧ _parse_int .null = .ok none
    ∧ _parse_int (.str "") = .ok none
    ∧ _parse_int (.str "abc") = .ok none
    ∧ _parse_int (.str "1e400")
      = .error (.pyErr .overflowError "cannot convert float infinity to integer") := by
  refine ⟨by decide, by decide, by decide, by decide, by decide, by decide, by decide,
    by decide, by decide, by decide⟩

/-- C10: a Permission error (HTTP 403) is reported with SN_QUERY_ERROR and
not SN_AUTH_ERROR: `ServiceNowPermissionError` is a sibling, not a subclass,
of the `ServiceNowAuthError` the tools catch first, so it falls through to
the base `ServiceNowError` handler. -/
theorem permission_error_code_query (e : SnowError) (h : e.kind = .permission) :
    get_license_utilization 50 (.error (.snow e)) = .err e.message "SN_QUERY_ERROR"
    ∧ calculate_asset_costs 200 (.error (.snow e)) = .err e.message "SN_QUERY_ERROR"
    ∧ toolErrorCode (.snow e) ≠ "SN_AUTH_ERROR" := by
  obtain ⟨k, m, sc, tn, si⟩ := e
  dsimp only at h
  subst h
  refine ⟨rfl, rfl, ?_⟩
  show ("SN_QUERY_ERROR" : String) ≠ "SN_AUTH_ERROR"
  decide

/-- C10 witness at a concrete 403 error. -/
theorem permission_error_code_query_witness :
    get_license_utilization 50
        (.error (.snow { kind := .permission, message := "denied" }))
      = .err "denied" "SN_QUERY_ERROR" :=
  (permission_error_code_query { kind := .permission, message := "denied" } rfl).1

/-- C9: once `get_config()` has been called after the last `reset_config()`,
a later `set_config(c)` has no effect on what `get_config()` returns — the
`lru_cache` slot keeps serving the cached value, since `set_config` does not
clear it; and after a reset, a `set_config(c)` preceding the next
`get_config()` does take effect. -/
theorem config_set_after_get_inert :
    (∀ (env c : AssetAgentConfig) (t1 t2 : List ConfigOp), ConfigOp.reset ∉ t2 →
      getConfigValue env
          (runConfigOps env ((t1 ++ ConfigOp.get :: t2) ++ [ConfigOp.set c]))
        = getConfigValue env (runConfigOps env (t1 ++ ConfigOp.get :: t2)))
    ∧ (∀ (env c : AssetAgentConfig) (t : List ConfigOp),
      getConfigValue env (runConfigOps env (t ++ [ConfigOp.reset, ConfigOp.set c]))
        = c) := by
  constructor
  · intro env c t1 t2 hres
    have hsome : (runConfigOps env (t1 ++ ConfigOp.get :: t2)).cache_slot.isSome := by
      have hsplit : t1 ++ ConfigOp.get :: t2 = (t1 ++ [ConfigOp.get]) ++ t2 := by simp
      rw [hsplit]
      unfold runConfigOps
      rw [List.foldl_append]
      apply foldl_configStep_cache_isSome env t2 hres
      rw [List.foldl_append]
      rfl
    obtain ⟨v, hv⟩ := Option.isSome_iff_exists.mp hsome
    rw [runConfigOps_append_one]
    have hset : (configStep env (runConfigOps env (t1 ++ ConfigOp.get :: t2))
        (ConfigOp.set c)).cache_slot = some v := by
      simpa [configStep] using hv
    rw [getConfigValue_of_cache env _ v hset, getConfigValue_of_cache env _ v hv]
  · intro env c t
    have hsplit : t ++ [ConfigOp.reset, ConfigOp.set c]
        = (t ++ [ConfigOp.reset]) ++ [ConfigOp.set c] := by simp
    rw [hsplit, runConfigOps_append_one, runConfigOps_append_one]
    rfl

/-- C9 witness: with a concrete environment config and override, a set after
a get is inert, and a set right after a reset takes effect. -/
theorem config_set_after_get_inert_witness :
    getConfigValue
        { servicenow_instance := "https://env.example.com",
          servicenow_username := "eu", servicenow_password := "ep" }
        (runConfigOps
          { servicenow_instance := "https://env.example.com",
            servicenow_username := "eu", servicenow_password := "ep" }
          (([] ++ ConfigOp.get :: []) ++ [ConfigOp.set
            { servicenow_instance := "https://ovr.example.com",
              servicenow_username := "ou", servicenow_password := "op" }]))
      = getConfigValue
        { servicenow_instance := "https://env.example.com",
          servicenow_username := "eu", servicenow_password := "ep" }
        (runConfigOps
          { servicenow_instance := "https://env.example.com",
            servicenow_username := "eu", servicenow_password := "ep" }
          ([] ++ ConfigOp.get :: []))
    ∧ getConfigValue
        { servicenow_instance := "https://env.example.com",
          servicenow_username := "eu", servicenow_password := "ep" }
        (runConfigOps
          { servicenow_instance := "https://env.example.com",
            servicenow_username := "eu", servicenow_password := "ep" }
          ([] ++ [ConfigOp.reset, ConfigOp.set
            { servicenow_instance := "https://ovr.example.com",
              servicenow_username := "ou", servicenow_password := "op" }]))
      = { servicenow_instance := "https://ovr.example.com",
          servicenow_username := "ou", servicenow_password := "op" } :=
  ⟨config_set_after_get_inert.1 _ _ [] [] (by simp),
   config_set_after_get_inert.2 _ _ []⟩

/-- C3 counterexample: the claimed error-code mapping fails in two ways.  A
typed NotFound error (HTTP 404) is reported with SN_QUERY_ERROR, not
SN_NOT_FOUND — no tool catches `ServiceNowNotFoundError`; and the tools with
only a bare `except Exception` handler report even an Auth error with
SN_QUERY_ERROR, not SN_AUTH_ERROR, as `query_software_licenses` shows. -/
theorem tool_error_code_counterexample :
    get_license_utilization 50
        (.error (.snow
          { kind := .notFound, message := "Not found on table 'alm_license': nf",
            status_code := some 404, table_name := some "alm_license" }))
      = .err "Not found on table 'alm_license': nf" "SN_QUERY_ERROR"
    ∧ query_software_licenses 50
        (.error (.snow
          { kind := .auth, message := "bad creds", status_code := some 401,
            table_name := some "alm_license" }))
      = .err "bad creds" "SN_QUERY_ERROR"
    ∧ "SN_QUERY_ERROR" ≠ "SN_NOT_FOUND"
    ∧ "SN_QUERY_ERROR" ≠ "SN_AUTH_ERROR" := by
  refine ⟨rfl, rfl, by decide, by decide⟩

/-- C3: reporting-operation error envelopes, amended, over all thirteen
tools.  Every limit-taking tool returns the SN_VALIDATION_ERROR envelope on
a limit below 1 whatever the client would have answered (the guard runs
before any client call), the two-parameter tools validate their day
parameter next, and the identifier-taking tools validate that an id was
given.  Every raised error is returned as `{error: str(exc), error_code}`:
the eight tools with the typed handler chain map Auth to SN_AUTH_ERROR,
RateLimit to SN_RATE_LIMIT and every other typed or unexpected error —
NotFound, Permission and Connection included — to SN_QUERY_ERROR, while the
five tools with only a bare `except Exception` handler (software, compliance,
contracts, health, lifecycle) report every failure, Auth and RateLimit
included, as SN_QUERY_ERROR.  A typed NotFound error therefore never yields
SN_NOT_FOUND: that code comes only from the domain-level empty-lookup paths
of the details and lifecycle tools.  Every code produced is one of the five
stable codes. -/
theorem tool_error_codes_amended :
    (∀ (limit : ℤ) (fetch : Except PyExc JVal), limit < 1 →
      get_license_utilization limit fetch
          = .err "limit must be >= 1" "SN_VALIDATION_ERROR"
        ∧ calculate_asset_costs limit fetch
          = .err "limit must be >= 1" "SN_VALIDATION_ERROR"
        ∧ query_software_licenses limit fetch
          = .err "limit must be >= 1" "SN_VALIDATION_ERROR"
        ∧ check_license_compliance limit fetch
          = .err "limit must be >= 1" "SN_VALIDATION_ERROR"
        ∧ get_asset_contracts limit fetch
          = .err "limit must be >= 1" "SN_VALIDATION_ERROR"
        ∧ query_hardware_assets limit fetch
          = .err "limit must be >= 1" "SN_VALIDATION_ERROR"
        ∧ (∀ fetch2, reconcile_assets_to_cis limit fetch fetch2
          = .err "limit must be >= 1" "SN_VALIDATION_ERROR")
        ∧ (∀ (life : Option ℤ) (today : PyDate),
            track_asset_depreciation life limit fetch today
          = .err "limit must be >= 1" "SN_VALIDATION_ERROR")
        ∧ (∀ days : ℤ, find_underutilized_assets days limit fetch
          = .err "limit must be >= 1" "SN_VALIDATION_ERROR")
        ∧ (∀ (days : ℤ) (today : PyDate),
            find_expiring_contracts days limit fetch today
          = .err "limit must be >= 1" "SN_VALIDATION_ERROR"))
    ∧ (∀ (days limit : ℤ) (fetch : Except PyExc JVal), ¬ limit < 1 → days < 1 →
      find_underutilized_assets days limit fetch
          = .err "days_threshold must be >= 1" "SN_VALIDATION_ERROR"
        ∧ (∀ today : PyDate, find_expiring_contracts days limit fetch today
          = .err "days_ahead must be >= 1" "SN_VALIDATION_ERROR"))
    ∧ (∀ (f1 f2 : Except PyExc JVal) (today : PyDate),
      get_asset_details none none f1 f2
          = .err "Provide either sys_id or asset_tag" "SN_VALIDATION_ERROR"
        ∧ get_asset_lifecycle none none f1 f2 today
          = .err "Provide either sys_id or asset_tag" "SN_VALIDATION_ERROR")
    ∧ (∀ (limit : ℤ) (e : PyExc), ¬ limit < 1 →
      get_license_utilization limit (.error e)
          = .err (excMessage e) (specErrorCode e)
        ∧ calculate_asset_costs limit (.error e)
          = .err (excMessage e) (specErrorCode e)
        ∧ query_hardware_assets limit (.error e)
          = .err (excMessage e) (specErrorCode e)
        ∧ (∀ fetch2, reconcile_assets_to_cis limit (.error e) fetch2
          = .err (excMessage e) (specErrorCode e))
        ∧ (∀ v : JVal, reconcile_assets_to_cis limit (.ok v) (.error e)
          = .err (excMessage e) (specErrorCode e))
        ∧ (∀ (life : Option ℤ) (today : PyDate),
            track_asset_depreciation life limit (.error e) today
          = .err (excMessage e) (specErrorCode e))
        ∧ (∀ days : ℤ, ¬ days < 1 →
            find_underutilized_assets days limit (.error e)
          = .err (excMessage e) (specErrorCode e))
        ∧ (∀ (days : ℤ) (today : PyDate), ¬ days < 1 →
            find_expiring_contracts days limit (.error e) today
          = .err (excMessage e) (specErrorCode e)))
    ∧ (∀ (sid : String) (e : PyExc) (fl : Except PyExc JVal), sid ≠ "" →
      get_asset_details (some sid) none (.error e) fl
        = .err (excMessage e) (specErrorCode e))
    ∧ (∀ (tag : String) (e : PyExc) (fo : Except PyExc JVal), tag ≠ "" →
      get_asset_details none (some tag) fo (.error e)
        = .err (excMessage e) (specErrorCode e))
    ∧ (∀ (limit : ℤ) (e : PyExc), ¬ limit < 1 →
      query_software_licenses limit (.error e)
          = .err (excMessage e) "SN_QUERY_ERROR"
        ∧ check_license_compliance limit (.error e)
          = .err (excMessage e) "SN_QUERY_ERROR"
        ∧ get_asset_contracts limit (.error e)
          = .err (excMessage e) "SN_QUERY_ERROR")
    ∧ (∀ (e : PyExc) (fc : Except PyExc JVal),
      get_asset_health_metrics (.error e) fc
        = .err (excMessage e) "SN_QUERY_ERROR")
    ∧ (∀ (sid : String) (e : PyExc) (fl : Except PyExc JVal) (today : PyDate),
      sid ≠ "" →
      get_asset_lifecycle (some sid) none (.error e) fl today
        = .err (excMessage e) "SN_QUERY_ERROR")
    ∧ (∀ (tag : String) (e : PyExc) (fo : Except PyExc JVal) (today : PyDate),
      tag ≠ "" →
      get_asset_lifecycle none (some tag) fo (.error e) today
        = .err (excMessage e) "SN_QUERY_ERROR")
    ∧ (∀ (tag : String) (fo : Except PyExc JVal), tag ≠ "" →
      get_asset_details none (some tag) fo (.ok (.arr []))
        = .err ("Asset not found: asset_tag=" ++ tag) "SN_NOT_FOUND")
    ∧ (∀ (tag : String) (fo : Except PyExc JVal) (today : PyDate), tag ≠ "" →
      get_asset_lifecycle none (some tag) fo (.ok (.arr [])) today
        = .err ("Asset not found: asset_tag=" ++ tag) "SN_NOT_FOUND")
    ∧ (∀ e : PyExc, specErrorCode e ∈ stableErrorCodes)
    ∧ "SN_VALIDATION_ERROR" ∈ stableErrorCodes
    ∧ "SN_NOT_FOUND" ∈ stableErrorCodes
    ∧ "SN_QUERY_ERROR" ∈ stableErrorCodes := by
  refine ⟨?_, ?_, ?_, ?_, ?_, ?_, ?_, ?_, ?_, ?_, ?_, ?_, ?_, ?_, ?_, ?_⟩
  · intro limit fetch h
    refine ⟨?_, ?_, ?_, ?_, ?_, ?_, fun fetch2 => ?_, fun life today => ?_,
      fun days => ?_, fun days today => ?_⟩
    · unfold get_license_utilization; rw [if_pos h]
    · unfold calculate_asset_costs; rw [if_pos h]
    · unfold query_software_licenses; rw [if_pos h]
    · unfold check_license_compliance; rw [if_pos h]
    · unfold get_asset_contracts; rw [if_pos h]
    · unfold query_hardware_assets; rw [if_pos h]
    · unfold reconcile_assets_to_cis; rw [if_pos h]
    · unfold track_asset_depreciation; rw [if_pos h]
    · unfold find_underutilized_assets; rw [if_pos h]
    · unfold find_expiring_contracts; rw [if_pos h]
  · intro days limit fetch hl hd
    constructor
    · unfold find_underutilized_assets; rw [if_neg hl, if_pos hd]
    · intro today
      unfold find_expiring_contracts; rw [if_neg hl, if_pos hd]
  · intro f1 f2 today
    constructor
    · unfold get_asset_details; rw [if_pos (by simp [optStrTruthy])]
    · unfold get_asset_lifecycle; rw [if_pos (by simp [optStrTruthy])]
  · intro limit e h
    refine ⟨?_, ?_, ?_, fun fetch2 => ?_, fun v => ?_, fun life today => ?_,
      fun days hd => ?_, fun days today hd => ?_⟩
    · unfold get_license_utilization
      rw [if_neg h]
      show toolErrEnvelope e = _
      unfold toolErrEnvelope
      rw [toolErrorCode_eq_specErrorCode]
    · unfold calculate_asset_costs
      rw [if_neg h]
      show toolErrEnvelope e = _
      unfold toolErrEnvelope
      rw [toolErrorCode_eq_specErrorCode]
    · unfold query_hardware_assets
      rw [if_neg h]
      show toolErrEnvelope e = _
      unfold toolErrEnvelope
      rw [toolErrorCode_eq_specErrorCode]
    · unfold reconcile_assets_to_cis
      rw [if_neg h]
      show toolErrEnvelope e = _
      unfold toolErrEnvelope
      rw [toolErrorCode_eq_specErrorCode]
    · unfold reconcile_assets_to_cis
      rw [if_neg h]
      show toolErrEnvelope e = _
      unfold toolErrEnvelope
      rw [toolErrorCode_eq_specErrorCode]
    · unfold track_asset_depreciation
      rw [if_neg h]
      show toolErrEnvelope e = _
      unfold toolErrEnvelope
      rw [toolErrorCode_eq_specErrorCode]
    · unfold find_underutilized_assets
      rw [if_neg h, if_neg hd]
      show toolErrEnvelope e = _
      unfold toolErrEnvelope
      rw [toolErrorCode_eq_specErrorCode]
    · unfold find_expiring_contracts
      rw [if_neg h, if_neg hd]
      show toolErrEnvelope e = _
      unfold toolErrEnvelope
      rw [toolErrorCode_eq_specErrorCode]
  · intro sid e fl h
    unfold get_asset_details
    rw [if_neg (by simp [optStrTruthy, h]), if_pos (by simp [optStrTruthy, h])]
    show toolErrEnvelope e = _
    unfold toolErrEnvelope
    rw [toolErrorCode_eq_specErrorCode]
  · intro tag e fo h
    unfold get_asset_details
    rw [if_neg (by simp [optStrTruthy, h]), if_neg (by simp [optStrTruthy])]
    show toolErrEnvelope e = _
    unfold toolErrEnvelope
    rw [toolErrorCode_eq_specErrorCode]
  · intro limit e h
    refine ⟨?_, ?_, ?_⟩
    · unfold query_software_licenses; rw [if_neg h]; rfl
    · unfold check_license_compliance; rw [if_neg h]; rfl
    · unfold get_asset_contracts; rw [if_neg h]; rfl
  · intro e fc
    rfl
  · intro sid e fl today h
    unfold get_asset_lifecycle
    rw [if_neg (by simp [optStrTruthy, h]), if_pos (by simp [optStrTruthy, h])]
    rfl
  · intro tag e fo today h
    unfold get_asset_lifecycle
    rw [if_neg (by simp [optStrTruthy, h]), if_neg (by simp [optStrTruthy])]
  · intro tag fo h
    unfold get_asset_details
    rw [if_neg (by simp [optStrTruthy, h]), if_neg (by simp [optStrTruthy])]
    rfl
  · intro tag fo today h
    unfold get_asset_lifecycle
    rw [if_neg (by simp [optStrTruthy, h]), if_neg (by simp [optStrTruthy])]
    rfl
  · intro e
    cases e with
    | pyErr k m => simp [specErrorCode, stableErrorCodes]
    | snow se =>
      unfold specErrorCode
      dsimp only
      split_ifs <;> simp [stableErrorCodes]
  · simp [stableErrorCodes]
  · simp [stableErrorCodes]
  · simp [stableErrorCodes]

/-- C3 witness: concrete instances of every guarded part of the amended
statement — the limit and day-threshold guards, both handler chains at a
typed error, and the two domain-level not-found envelopes. -/
theorem tool_error_codes_witness :
    get_license_utilization 0 (.ok (.arr []))
      = .err "limit must be >= 1" "SN_VALIDATION_ERROR"
    ∧ find_underutilized_assets 0 5 (.ok (.arr []))
      = .err "days_threshold must be >= 1" "SN_VALIDATION_ERROR"
    ∧ get_asset_details none none (.ok JVal.null) (.ok JVal.null)
      = .err "Provide either sys_id or asset_tag" "SN_VALIDATION_ERROR"
    ∧ calculate_asset_costs 200
        (.error (.snow { kind := .auth, message := "bad" }))
      = .err "bad" "SN_AUTH_ERROR"
    ∧ get_asset_details (some "abc") none
        (.error (.snow { kind := .rateLimit, message := "slow" })) (.ok JVal.null)
      = .err "slow" "SN_RATE_LIMIT"
    ∧ get_asset_details none (some "TAG1") (.ok JVal.null)
        (.error (.snow { kind := .notFound, message := "nf" }))
      = .err "nf" "SN_QUERY_ERROR"
    ∧ query_software_licenses 50
        (.error (.snow { kind := .rateLimit, message := "slow" }))
      = .err "slow" "SN_QUERY_ERROR"
    ∧ get_asset_health_metrics
        (.error (.snow { kind := .auth, message := "bad" })) (.ok JVal.null)
      = .err "bad" "SN_QUERY_ERROR"
    ∧ get_asset_lifecycle (some "s1") none
        (.error (.snow { kind := .auth, message := "bad" })) (.ok JVal.null)
        ⟨2026, 1, 1⟩
      = .err "bad" "SN_QUERY_ERROR"
    ∧ get_asset_details none (some "TAG1") (.ok JVal.null) (.ok (.arr []))
      = .err "Asset not found: asset_tag=TAG1" "SN_NOT_FOUND"
    ∧ get_asset_lifecycle none (some "TAG1") (.ok JVal.null) (.ok (.arr []))
        ⟨2026, 1, 1⟩
      = .err "Asset not found: asset_tag=TAG1" "SN_NOT_FOUND" := by
  obtain ⟨g1, g2, g3, m1, m2, m3, b1, b2, b3, b4, n1, n2, c1, c2, c3, c4⟩ :=
    tool_error_codes_amended
  exact ⟨(g1 0 (.ok (.arr [])) (by decide)).1,
    (g2 0 5 (.ok (.arr [])) (by decide) (by decide)).1,
    (g3 (.ok JVal.null) (.ok JVal.null) ⟨2026, 1, 1⟩).1,
    (m1 200 (.snow { kind := .auth, message := "bad" }) (by decide)).2.1,
    m2 "abc" (.snow { kind := .rateLimit, message := "slow" }) (.ok JVal.null)
      (by decide),
    m3 "TAG1" (.snow { kind := .notFound, message := "nf" }) (.ok JVal.null)
      (by decide),
    (b1 50 (.snow { kind := .rateLimit, message := "slow" }) (by decide)).1,
    b2 (.snow { kind := .auth, message := "bad" }) (.ok JVal.null),
    b3 "s1" (.snow { kind := .auth, message := "bad" }) (.ok JVal.null)
      ⟨2026, 1, 1⟩ (by decide),
    n1 "TAG1" (.ok JVal.null) (by decide),
    n2 "TAG1" (.ok JVal.null) ⟨2026, 1, 1⟩ (by decide)⟩

/-- C4 counterexample: a 404 on `get_record` (a single-record operation by
id) produces an error whose `sys_id` is `None` — `_raise_for_status` never
receives the id — and whose message reads "Not found on table '...'",
not the claimed "<desc> for table '<table>', <id>: <detail>" form. -/
theorem get_record_404_counterexample :
    getRecord (.resp
        { status_code := 404, text := "oops",
          jsonBody := some (.obj [("error", .obj [("message", .str "nf")])]) })
        "alm_asset" "id1"
      = .error (.snow
        { kind := .notFound, message := "Not found on table 'alm_asset': nf",
          status_code := some 404, table_name := some "alm_asset", sys_id := none })
    ∧ ¬ (∃ d : String, "Not found on table 'alm_asset': nf"
          = d ++ " for table 'alm_asset', id1: nf") := by
  constructor
  · rfl
  · rw [exists_prefix_iff_suffix]
    decide

/-- C4: error context, amended.  Every status in the 400-599 error range
yields a typed error carrying the status code and the table name, a message
of the form "<short description> (for/on) table '<table>': <detail>", and no
record id — the status-mapping path never attaches `sys_id`, even for
single-record operations (only the network-failure path does).  The detail
is the JSON body's `error.message` when present, else the first 300
characters of the raw text. -/
theorem raise_error_context_amended :
    (∀ (r : HttpResponse) (t : String), 400 ≤ r.status_code → r.status_code < 600 →
      ∃ e, raiseForStatus r t = some e
        ∧ e.status_code = some r.status_code
        ∧ e.table_name = some t
        ∧ e.sys_id = none
        ∧ ∃ d, e.message = d ++ "table '" ++ t ++ "': " ++ extractDetail r)
    ∧ (∀ r : HttpResponse, r.jsonBody = none → extractDetail r = r.text.take 300)
    ∧ (∀ (r : HttpResponse) (body eo : List (String × JVal)) (m : JVal),
        r.jsonBody = some (.obj body) → body.lookup "error" = some (.obj eo) →
        eo.lookup "message" = some m → extractDetail r = pyStr m) := by
  refine ⟨?_, ?_, ?_⟩
  · intro r t h1 h2
    have hok : ¬ (r.respOk = true) := by
      simp only [HttpResponse.respOk, decide_eq_true_eq]
      omega
    unfold raiseForStatus
    rw [if_neg hok]
    dsimp only
    by_cases e1 : r.status_code = 401
    · rw [if_pos e1]
      refine ⟨_, rfl, rfl, rfl, rfl, "Authentication failed for ", ?_⟩
      rw [show ("Authentication failed for " : String) ++ "table '"
          = "Authentication failed for table '" from by decide]
    · rw [if_neg e1]
      by_cases e2 : r.status_code = 403
      · rw [if_pos e2]
        refine ⟨_, rfl, rfl, rfl, rfl, "Permission denied for ", ?_⟩
        rw [show ("Permission denied for " : String) ++ "table '"
            = "Permission denied for table '" from by decide]
      · rw [if_neg e2]
        by_cases e3 : r.status_code = 404
        · rw [if_pos e3]
          refine ⟨_, rfl, rfl, rfl, rfl, "Not found on ", ?_⟩
          rw [show ("Not found on " : String) ++ "table '"
              = "Not found on table '" from by decide]
        · rw [if_neg e3]
          by_cases e4 : r.status_code = 429
          · rw [if_pos e4]
            refine ⟨_, rfl, rfl, rfl, rfl, "Rate-limited on ", ?_⟩
            rw [show ("Rate-limited on " : String) ++ "table '"
                = "Rate-limited on table '" from by decide]
          · rw [if_neg e4]
            refine ⟨_, rfl, rfl, rfl, rfl,
              "API error " ++ toString r.status_code ++ " on ", ?_⟩
            rw [String.append_assoc ("API error " ++ toString r.status_code) " on " "table '",
              show (" on " : String) ++ "table '" = " on table '" from by decide]
  · intro r h
    unfold extractDetail
    rw [h]
  · intro r body eo m hb he hm
    unfold extractDetail
    rw [hb]
    dsimp only
    rw [he]
    dsimp only
    rw [hm]

/-- C4 witness: the amended statement at a concrete 404 response with an
unparseable body. -/
theorem raise_error_context_witness :
    ∃ e, raiseForStatus { status_code := 404, text := "oops", jsonBody := none }
          "alm_asset" = some e
      ∧ e.status_code = some 404
      ∧ e.table_name = some "alm_asset"
      ∧ e.sys_id = none
      ∧ ∃ d, e.message = d ++ "table '" ++ "alm_asset" ++ "': "
          ++ extractDetail { status_code := 404, text := "oops", jsonBody := none } :=
  raise_error_context_amended.1
    { status_code := 404, text := "oops", jsonBody := none } "alm_asset"
    (by decide) (by decide)

/-- C6 counterexample: `ping` can raise.  Against a backend answering 200
with a body that is not JSON, `get_records` raises the JSON decode error,
which is not a `ServiceNowError` and passes through `ping` uncaught. -/
theorem ping_bad_json_counterexample :
    ping (.resp { status_code := 200, text := "not json", jsonBody := none })
        (Frac.ofInt 0)
      = .error (.pyErr .jsonDecode "Expecting value: line 1 column 1 (char 0)") := rfl

/-- C6: ping error conversion, amended.  `ping` never raises a typed error:
any `ServiceNowError` from the underlying one-record list call becomes
`{status: "error", error: <the error's non-empty message>, response_time_s}`,
success becomes `{status: "ok", response_time_s}`, and the recorded elapsed
time stays nonnegative; in particular a 401 backend always yields the
error-status result.  (A 2xx response whose body is not parseable JSON makes
the underlying call raise a non-ServiceNow error that `ping` propagates —
see the counterexample.) -/
theorem ping_error_conversion_amended :
    (∀ (inp : NetIn) (q : Frac) (e : SnowError), q.Nonneg →
      getRecords inp "sys_properties" = .error (.snow e) →
      ping inp q = .ok
          { status := "error", error := some e.message,
            response_time_s := pyRoundTo 3 q }
        ∧ e.message ≠ "" ∧ (pyRoundTo 3 q).Nonneg)
    ∧ (∀ (inp : NetIn) (q : Frac) (v : JVal), q.Nonneg →
      getRecords inp "sys_properties" = .ok v →
      ping inp q = .ok { status := "ok", response_time_s := pyRoundTo 3 q }
        ∧ (pyRoundTo 3 q).Nonneg)
    ∧ (∀ (q : Frac) (t : String) (b : Option JVal), q.Nonneg →
      ∃ msg, ping (.resp { status_code := 401, text := t, jsonBody := b }) q
          = .ok
            { status := "error", error := some msg,
              response_time_s := pyRoundTo 3 q }
        ∧ msg ≠ "") := by
  refine ⟨?_, ?_, ?_⟩
  · intro inp q e hq h
    exact ⟨ping_snow_branch inp q e h,
      getRecords_snow_message_ne_empty inp "sys_properties" e h,
      pyRoundTo_nonneg 3 q hq⟩
  · intro inp q v hq h
    exact ⟨ping_ok_branch inp q v h, pyRoundTo_nonneg 3 q hq⟩
  · intro q t b hq
    have h : getRecords (.resp { status_code := 401, text := t, jsonBody := b })
        "sys_properties" = .error (.snow
          { kind := .auth,
            message := "Authentication failed for table 'sys_properties': "
              ++ extractDetail { status_code := 401, text := t, jsonBody := b },
            status_code := some 401, table_name := some "sys_properties" }) := rfl
    refine ⟨_, ping_snow_branch _ q _ h, ?_⟩
    apply string_ne_empty_of_data
    apply append_data_ne_left
    decide

/-- C6 witness: the amended 401 scenario at a concrete response and elapsed
time zero. -/
theorem ping_error_conversion_witness :
    ∃ msg, ping (.resp { status_code := 401, text := "x", jsonBody := none })
          (Frac.ofInt 0)
        = .ok
          { status := "error", error := some msg,
            response_time_s := pyRoundTo 3 (Frac.ofInt 0) }
      ∧ msg ≠ "" :=
  ping_error_conversion_amended.2.2 (Frac.ofInt 0) "x" none ⟨by decide, by decide⟩
